import Mathlib

/-!
# Verification of the librtcm RTCM3 decoder (`src/c/src/decode.c`)

This file gives a shallow embedding of the decoder in `src/c/src/decode.c`
and proves properties of it.  C `double` fields are modelled as exact
rationals (`ℚ`); all the arithmetic the claims touch is additions,
multiplications and divisions by constants, which are exact.  Machine
integers are modelled as `Nat`/`Int`; the places where C unsigned
truncation can occur (`uint8_t cell_mask_size`) carry an explicit `% 256`.

The repository only ships `decode.c`; the bit reader (`bits.c`), the
numeric constants (`constants.h`) and the MSM dispatch helpers
(`msm_utils.c`) are declared elsewhere.  Those are modelled from the
specification and marked `Modelled from the spec:` in their doc comments.
-/

namespace Rtcm

/-- Return code `rtcm3_rc` of every decoder. -/
inductive Rc where
  | RC_OK
  | RC_MESSAGE_TYPE_MISMATCH
  | RC_INVALID_MESSAGE
deriving DecidableEq, Repr

/-! ## Bit reader -/

/-- Modelled from the spec: `bits.c` is not under `src/`.  Bit `i` of a byte
buffer, MSB-first within each byte (spec section 4.1).  Reads past the end of
the buffer yield 0 (the framing layer guarantees sufficient bytes, so such
reads never decide an in-contract result). -/
def getBitAt (buff : List Nat) (i : Nat) : Nat :=
  buff.getD (i / 8) 0 / 2 ^ (7 - i % 8) % 2

/-- Modelled from the spec: `rtcm_getbitu(buf, pos, len)` extracts `len` bits
starting at bit `pos`, MSB-first, zero-extended (spec section 4.1). -/
def rtcm_getbitu (buff : List Nat) (pos width : Nat) : Nat :=
  (List.range width).foldl (fun acc k => 2 * acc + getBitAt buff (pos + k)) 0

/-- Modelled from the spec: `rtcm_getbits` equals `rtcm_getbitu`
sign-extended from the high bit (two's complement, spec sections 4.1, 6). -/
def rtcm_getbits (buff : List Nat) (pos width : Nat) : Int :=
  let u := rtcm_getbitu buff pos width
  if u < 2 ^ (width - 1) then (u : Int) else (u : Int) - 2 ^ width

/-- Modelled from the spec: `rtcm_getbitsl` is the 64-bit-wide variant of
`rtcm_getbits` (used for the 38-bit ARP coordinates); same extraction. -/
def rtcm_getbitsl (buff : List Nat) (pos width : Nat) : Int :=
  rtcm_getbits buff pos width

/-! ## Constants

Modelled from the spec: `constants.h` is not under `src/`.  Values are the
ones stated in the spec (sections 3, 4.3, 4.5, 8) and in the standard
sentinel convention (minimum representable signed value, spec glossary). -/

def RTCM_MAX_TOW_MS : Nat := 604799999
def RTCM_GLO_MAX_TOW_MS : Nat := 86400999
def MT1012_GLO_FCN_OFFSET : Int := 7
def MT1012_GLO_MAX_FCN : Nat := 20
def PRUNIT_GPS : ℚ := 299792458 / 1000
def PRUNIT_GLO : ℚ := 599584916 / 1000
def GPS_C : ℚ := 299792458
def GPS_L1_HZ : ℚ := 1575420000
def GPS_L2_HZ : ℚ := 1227600000
def GLO_L1_HZ : ℚ := 1602000000
def GLO_L2_HZ : ℚ := 1246000000
def GLO_L1_DELTA_HZ : ℚ := 562500
def GLO_L2_DELTA_HZ : ℚ := 437500
def PR_L1_INVALID : Int := 524288
def PR_L2_INVALID : Int := -8192
def CP_INVALID : Int := -524288
def BDS_SECOND_TO_GPS_SECOND : Nat := 14
def C_2P30 : Nat := 1073741824
def MSM_MAX_CELLS : Nat := 64
def MSM_SATELLITE_MASK_SIZE : Nat := 64
def MSM_SIGNAL_MASK_SIZE : Nat := 32
def MSM_ROUGH_RANGE_INVALID : Nat := 255
def MSM_ROUGH_RATE_INVALID : Int := -8192
def MSM_PR_INVALID : Int := -16384
def MSM_PR_EXT_INVALID : Int := -524288
def MSM_CP_INVALID : Int := -2097152
def MSM_CP_EXT_INVALID : Int := -8388608
def MSM_DOP_INVALID : Int := -16384
def MSM_GLO_FCN_UNKNOWN : Nat := 255

/-! ## Lock-time tables -/

/-- `from_lock_ind` (decode.c lines 34-54): 7-bit Lock Time Indicator
(DF013/019/043/049) to integer seconds. -/
def from_lock_ind (lock : Nat) : Nat :=
  if lock < 24 then lock
  else if lock < 48 then 2 * lock - 24
  else if lock < 72 then 4 * lock - 120
  else if lock < 96 then 8 * lock - 408
  else if lock < 120 then 16 * lock - 1176
  else if lock < 127 then 32 * lock - 3096
  else 937

/-- `rtcm3_decode_lock_time` (decode.c lines 58-66): 4-bit DF402 indicator to
seconds; the MSB nibble is discarded (`lock &= 0x0F`). -/
def rtcm3_decode_lock_time (lock : Nat) : ℚ :=
  let lock := lock % 16
  if lock = 0 then 0 else ((32 * 2 ^ (lock - 1) : Nat) : ℚ) / 1000

/-- `from_msm_lock_ind_ext` (decode.c lines 70-135): 10-bit DF407 extended
Lock Time Indicator to milliseconds. -/
def from_msm_lock_ind_ext (lock : Nat) : Nat :=
  if lock < 64 then lock
  else if lock < 96 then 2 * lock - 64
  else if lock < 128 then 4 * lock - 256
  else if lock < 160 then 8 * lock - 768
  else if lock < 192 then 16 * lock - 2048
  else if lock < 224 then 32 * lock - 5120
  else if lock < 256 then 64 * lock - 12288
  else if lock < 288 then 128 * lock - 28672
  else if lock < 320 then 256 * lock - 65536
  else if lock < 352 then 512 * lock - 147456
  else if lock < 384 then 1024 * lock - 327680
  else if lock < 416 then 2048 * lock - 720896
  else if lock < 448 then 4096 * lock - 1572864
  else if lock < 480 then 8192 * lock - 3407872
  else if lock < 512 then 16384 * lock - 7340032
  else if lock < 544 then 32768 * lock - 15728640
  else if lock < 576 then 65536 * lock - 33554432
  else if lock < 608 then 131072 * lock - 71303168
  else if lock < 640 then 262144 * lock - 150994944
  else if lock < 672 then 524288 * lock - 318767104
  else if lock < 704 then 1048576 * lock - 671088640
  else 67108864

/-! ## Legacy observable data model -/

/-- The validity flag word `flag_bf`.  `flags.data = 0` is the record with
every flag `false`. -/
structure FlagBf where
  valid_pr : Bool := false
  valid_cp : Bool := false
  valid_lock : Bool := false
  valid_cnr : Bool := false
  valid_dop : Bool := false
deriving DecidableEq, Repr

/-- `rtcm_freq_data`: per-(satellite, band) frequency observation. -/
structure RtcmFreqData where
  code : Nat := 0
  pseudorange : ℚ := 0
  carrier_phase : ℚ := 0
  lock : ℚ := 0
  cnr : ℚ := 0
  flags : FlagBf := {}
deriving DecidableEq, Repr

/-- `rtcm_sat_data`: `svId`, GLONASS `fcn`, and `obs[NUM_FREQS]` with
`NUM_FREQS = 2` (`obsL1 = obs[L1_FREQ]`, `obsL2 = obs[L2_FREQ]`). -/
structure RtcmSatData where
  svId : Nat := 0
  fcn : Nat := 0
  obsL1 : RtcmFreqData := {}
  obsL2 : RtcmFreqData := {}
deriving DecidableEq, Repr

/-- `rtcm_obs_header`. -/
structure RtcmObsHeader where
  msg_num : Nat := 0
  stn_id : Nat := 0
  tow_ms : Nat := 0
  sync : Nat := 0
  n_sat : Nat := 0
  div_free : Nat := 0
  smooth : Nat := 0
deriving DecidableEq, Repr

/-- `rtcm_obs_message`: the caller-provided record filled by the legacy
observable decoders.  The C `sats` array is modelled as a list: entry `i` is
`sats[i]`. -/
structure RtcmObsMessage where
  header : RtcmObsHeader := {}
  sats : List RtcmSatData := []
deriving DecidableEq, Repr

/-- Result of a legacy observable decoder: return code, the (mutated)
caller record, and the final value of the decoder's local bit cursor. -/
structure LegacyResult where
  rc : Rc
  msg : RtcmObsMessage
  endBit : Nat
deriving DecidableEq, Repr

/-- `init_sat_data` (decode.c lines 25-29): zero the flag words of both
frequencies, leaving every other field as the caller left it. -/
def init_sat_data (sat : RtcmSatData) : RtcmSatData :=
  { sat with obsL1 := { sat.obsL1 with flags := {} },
             obsL2 := { sat.obsL2 with flags := {} } }

/-- `rtcm3_read_header` (decode.c lines 187-205): the 64-bit non-GLONASS
observation header. -/
def rtcm3_read_header (buff : List Nat) : RtcmObsHeader :=
  { msg_num := rtcm_getbitu buff 0 12
    stn_id := rtcm_getbitu buff 12 12
    tow_ms := rtcm_getbitu buff 24 30
    sync := rtcm_getbitu buff 54 1
    n_sat := rtcm_getbitu buff 55 5
    div_free := rtcm_getbitu buff 60 1
    smooth := rtcm_getbitu buff 61 3 }

/-- `rtcm3_read_glo_header` (decode.c lines 207-225): the 61-bit GLONASS
observation header (27-bit time of day). -/
def rtcm3_read_glo_header (buff : List Nat) : RtcmObsHeader :=
  { msg_num := rtcm_getbitu buff 0 12
    stn_id := rtcm_getbitu buff 12 12
    tow_ms := rtcm_getbitu buff 24 27
    sync := rtcm_getbitu buff 51 1
    n_sat := rtcm_getbitu buff 52 5
    div_free := rtcm_getbitu buff 57 1
    smooth := rtcm_getbitu buff 58 3 }

/-! ## Legacy per-satellite field extraction

Each helper mirrors the corresponding `decode.c` function; the bit cursor is
passed explicitly and returned advanced exactly as the C code advances it. -/

/-- `decode_basic_gps_l1_freq_data` (decode.c lines 137-151).  Returns the
updated frequency record, `pr`, `phr_pr_diff` and the advanced cursor
(1 + 24 + 20 + 7 = 52 bits). -/
def decode_basic_gps_l1_freq_data (buff : List Nat) (bit : Nat)
    (fd : RtcmFreqData) : RtcmFreqData × Nat × Int × Nat :=
  let code := rtcm_getbitu buff bit 1
  let pr := rtcm_getbitu buff (bit + 1) 24
  let phr_pr_diff := rtcm_getbits buff (bit + 25) 20
  let lock := from_lock_ind (rtcm_getbitu buff (bit + 45) 7)
  ({ fd with code := code, lock := (lock : ℚ) }, pr, phr_pr_diff, bit + 52)

/-- `decode_basic_glo_l1_freq_data` (decode.c lines 153-169).  Also extracts
the 5-bit `fcn`; advances 1 + 5 + 25 + 20 + 7 = 58 bits. -/
def decode_basic_glo_l1_freq_data (buff : List Nat) (bit : Nat)
    (fd : RtcmFreqData) : RtcmFreqData × Nat × Int × Nat × Nat :=
  let code := rtcm_getbitu buff bit 1
  let fcn := rtcm_getbitu buff (bit + 1) 5
  let pr := rtcm_getbitu buff (bit + 6) 25
  let phr_pr_diff := rtcm_getbits buff (bit + 31) 20
  let lock := from_lock_ind (rtcm_getbitu buff (bit + 51) 7)
  ({ fd with code := code, lock := (lock : ℚ) }, pr, phr_pr_diff, fcn, bit + 58)

/-- `decode_basic_l2_freq_data` (decode.c lines 171-185).  Advances
2 + 14 + 20 + 7 = 43 bits. -/
def decode_basic_l2_freq_data (buff : List Nat) (bit : Nat)
    (fd : RtcmFreqData) : RtcmFreqData × Int × Int × Nat :=
  let code := rtcm_getbitu buff bit 2
  let pr := rtcm_getbits buff (bit + 2) 14
  let phr_pr_diff := rtcm_getbits buff (bit + 16) 20
  let lock := from_lock_ind (rtcm_getbitu buff (bit + 36) 7)
  ({ fd with code := code, lock := (lock : ℚ) }, pr, phr_pr_diff, bit + 43)

/-- `construct_L1_code` (decode.c lines 296-304): sets
`pseudorange = 0.02 * pr + amb_correction` and reports validity
(`pr != PR_L1_INVALID`). -/
def construct_L1_code (fd : RtcmFreqData) (pr : Int) (amb_correction : ℚ) :
    RtcmFreqData × Bool :=
  ({ fd with pseudorange := (1 / 50 : ℚ) * pr + amb_correction },
   decide (pr ≠ PR_L1_INVALID))

/-- `construct_L1_phase` (decode.c lines 306-315). -/
def construct_L1_phase (fd : RtcmFreqData) (phr_pr_diff : Int) (freq : ℚ) :
    RtcmFreqData × Bool :=
  ({ fd with carrier_phase :=
      (fd.pseudorange + (1 / 2000 : ℚ) * phr_pr_diff) / (GPS_C / freq) },
   decide (phr_pr_diff ≠ CP_INVALID))

/-- `construct_L2_code` (decode.c lines 317-325). -/
def construct_L2_code (fd : RtcmFreqData) (l1 : RtcmFreqData) (pr : Int) :
    RtcmFreqData × Bool :=
  ({ fd with pseudorange := (1 / 50 : ℚ) * pr + l1.pseudorange },
   decide (pr ≠ PR_L2_INVALID))

/-- `construct_L2_phase` (decode.c lines 327-337): the phase is built from
the **L1** pseudorange; validity is `phr_pr_diff != CP_INVALID` only. -/
def construct_L2_phase (fd : RtcmFreqData) (l1 : RtcmFreqData)
    (phr_pr_diff : Int) (freq : ℚ) : RtcmFreqData × Bool :=
  ({ fd with carrier_phase :=
      (l1.pseudorange + (1 / 2000 : ℚ) * phr_pr_diff) / (GPS_C / freq) },
   decide (phr_pr_diff ≠ CP_INVALID))

/-- `get_cnr` (decode.c lines 339-349): 8-bit CNR; raw 0 is invalid and
leaves the record's `cnr` untouched. -/
def get_cnr (fd : RtcmFreqData) (buff : List Nat) (bit : Nat) :
    RtcmFreqData × Bool × Nat :=
  let cnr := rtcm_getbitu buff bit 8
  (if cnr = 0 then fd else { fd with cnr := (1 / 4 : ℚ) * cnr },
   decide (cnr ≠ 0), bit + 8)

/-! ## Legacy satellite loops

The C decoders run `for (i = 0; i < n_sat; i++)` writing `sats[i]`.  The
loop is modelled by structural recursion on the number of remaining
iterations; `step buff bit sat` decodes one satellite starting at cursor
`bit` from the caller's `sats[i]` and returns the new record and cursor. -/

def legacy_loop (step : Nat → RtcmSatData → RtcmSatData × Nat) :
    Nat → Nat → Nat → List RtcmSatData → List RtcmSatData × Nat
  | 0, _, bit, sats => (sats, bit)
  | n + 1, i, bit, sats =>
    let p := step bit (sats.getD i {})
    legacy_loop step n (i + 1) p.2 (sats.set i p.1)

/-- Body of the 1001 satellite loop (decode.c lines 372-389). -/
def rtcm3_decode_1001_sat (buff : List Nat) (bit : Nat) (sat : RtcmSatData) :
    RtcmSatData × Nat :=
  let sat := init_sat_data sat
  let svId := rtcm_getbitu buff bit 6
  let bit := bit + 6
  let (l1, l1_pr, phr_pr_diff, bit) :=
    decode_basic_gps_l1_freq_data buff bit sat.obsL1
  let (l1, valid_pr) := construct_L1_code l1 l1_pr 0
  let (l1, valid_cp) := construct_L1_phase l1 phr_pr_diff GPS_L1_HZ
  let l1 := { l1 with flags := { l1.flags with
    valid_pr := valid_pr, valid_cp := valid_cp, valid_lock := valid_cp } }
  ({ sat with svId := svId, obsL1 := l1 }, bit)

/-- Body of the 1002 satellite loop (decode.c lines 415-436): adds the 8-bit
ambiguity and the 8-bit CNR after the basic L1 block. -/
def rtcm3_decode_1002_sat (buff : List Nat) (bit : Nat) (sat : RtcmSatData) :
    RtcmSatData × Nat :=
  let sat := init_sat_data sat
  let svId := rtcm_getbitu buff bit 6
  let bit := bit + 6
  let (l1, l1_pr, phr_pr_diff, bit) :=
    decode_basic_gps_l1_freq_data buff bit sat.obsL1
  let amb := rtcm_getbitu buff bit 8
  let bit := bit + 8
  let (l1, valid_cnr, bit) := get_cnr l1 buff bit
  let (l1, valid_pr) := construct_L1_code l1 l1_pr ((amb : ℚ) * PRUNIT_GPS)
  let (l1, valid_cp) := construct_L1_phase l1 phr_pr_diff GPS_L1_HZ
  let l1 := { l1 with flags := { l1.flags with
    valid_cnr := valid_cnr, valid_pr := valid_pr, valid_cp := valid_cp,
    valid_lock := valid_cp } }
  ({ sat with svId := svId, obsL1 := l1 }, bit)

/-- Body of the 1003 satellite loop (decode.c lines 462-490). -/
def rtcm3_decode_1003_sat (buff : List Nat) (bit : Nat) (sat : RtcmSatData) :
    RtcmSatData × Nat :=
  let sat := init_sat_data sat
  let svId := rtcm_getbitu buff bit 6
  let bit := bit + 6
  let (l1, l1_pr, phr_pr_diff, bit) :=
    decode_basic_gps_l1_freq_data buff bit sat.obsL1
  let (l1, valid_pr) := construct_L1_code l1 l1_pr 0
  let (l1, valid_cp) := construct_L1_phase l1 phr_pr_diff GPS_L1_HZ
  let l1 := { l1 with flags := { l1.flags with
    valid_pr := valid_pr, valid_cp := valid_cp, valid_lock := valid_cp } }
  let (l2, l2_pr, phr_pr_diff2, bit) :=
    decode_basic_l2_freq_data buff bit sat.obsL2
  let (l2, valid_pr2) := construct_L2_code l2 l1 l2_pr
  let (l2, valid_cp2) := construct_L2_phase l2 l1 phr_pr_diff2 GPS_L2_HZ
  let l2 := { l2 with flags := { l2.flags with
    valid_pr := valid_pr2, valid_cp := valid_cp2, valid_lock := valid_cp2 } }
  ({ sat with svId := svId, obsL1 := l1, obsL2 := l2 }, bit)

/-- Body of the 1004 satellite loop (decode.c lines 516-550). -/
def rtcm3_decode_1004_sat (buff : List Nat) (bit : Nat) (sat : RtcmSatData) :
    RtcmSatData × Nat :=
  let sat := init_sat_data sat
  let svId := rtcm_getbitu buff bit 6
  let bit := bit + 6
  let (l1, l1_pr, phr_pr_diff, bit) :=
    decode_basic_gps_l1_freq_data buff bit sat.obsL1
  let amb := rtcm_getbitu buff bit 8
  let bit := bit + 8
  let (l1, valid_cnr, bit) := get_cnr l1 buff bit
  let (l1, valid_pr) := construct_L1_code l1 l1_pr ((amb : ℚ) * PRUNIT_GPS)
  let (l1, valid_cp) := construct_L1_phase l1 phr_pr_diff GPS_L1_HZ
  let l1 := { l1 with flags := { l1.flags with
    valid_cnr := valid_cnr, valid_pr := valid_pr, valid_cp := valid_cp,
    valid_lock := valid_cp } }
  let (l2, l2_pr, phr_pr_diff2, bit) :=
    decode_basic_l2_freq_data buff bit sat.obsL2
  let (l2, valid_cnr2, bit) := get_cnr l2 buff bit
  let (l2, valid_pr2) := construct_L2_code l2 l1 l2_pr
  let (l2, valid_cp2) := construct_L2_phase l2 l1 phr_pr_diff2 GPS_L2_HZ
  let l2 := { l2 with flags := { l2.flags with
    valid_cnr := valid_cnr2, valid_pr := valid_pr2, valid_cp := valid_cp2,
    valid_lock := valid_cp2 } }
  ({ sat with svId := svId, obsL1 := l1, obsL2 := l2 }, bit)

/-- Body of the 1010 satellite loop (decode.c lines 717-743): GLONASS basic
L1 block, then a **7-bit** ambiguity and the 8-bit CNR.  The L1 carrier
phase is valid only when `fcn <= MT1012_GLO_MAX_FCN`. -/
def rtcm3_decode_1010_sat (buff : List Nat) (bit : Nat) (sat : RtcmSatData) :
    RtcmSatData × Nat :=
  let sat := init_sat_data sat
  let svId := rtcm_getbitu buff bit 6
  let bit := bit + 6
  let (l1, l1_pr, phr_pr_diff, fcn, bit) :=
    decode_basic_glo_l1_freq_data buff bit sat.obsL1
  let amb := rtcm_getbitu buff bit 7
  let bit := bit + 7
  let (l1, valid_cnr, bit) := get_cnr l1 buff bit
  let glo_fcn : Int := (fcn : Int) - MT1012_GLO_FCN_OFFSET
  let (l1, valid_pr) := construct_L1_code l1 l1_pr (PRUNIT_GLO * (amb : ℚ))
  let (l1, cp1) := construct_L1_phase l1 phr_pr_diff
      (GLO_L1_HZ + (glo_fcn : ℚ) * GLO_L1_DELTA_HZ)
  let valid_cp := decide (fcn ≤ MT1012_GLO_MAX_FCN) && cp1
  let l1 := { l1 with flags := { l1.flags with
    valid_cnr := valid_cnr, valid_pr := valid_pr, valid_cp := valid_cp,
    valid_lock := valid_cp } }
  ({ sat with svId := svId, fcn := fcn, obsL1 := l1 }, bit)

/-- Body of the 1012 satellite loop (decode.c lines 769-809): as 1010 plus
the L2 block.  Note that the `fcn <= MT1012_GLO_MAX_FCN` conjunct appears
only in the **L1** `valid_cp`; the L2 `valid_cp` is exactly the result of
`construct_L2_phase`. -/
def rtcm3_decode_1012_sat (buff : List Nat) (bit : Nat) (sat : RtcmSatData) :
    RtcmSatData × Nat :=
  let sat := init_sat_data sat
  let svId := rtcm_getbitu buff bit 6
  let bit := bit + 6
  let (l1, l1_pr, phr_pr_diff, fcn, bit) :=
    decode_basic_glo_l1_freq_data buff bit sat.obsL1
  let amb := rtcm_getbitu buff bit 7
  let bit := bit + 7
  let glo_fcn : Int := (fcn : Int) - MT1012_GLO_FCN_OFFSET
  let (l1, valid_cnr, bit) := get_cnr l1 buff bit
  let (l1, valid_pr) := construct_L1_code l1 l1_pr ((amb : ℚ) * PRUNIT_GLO)
  let (l1, cp1) := construct_L1_phase l1 phr_pr_diff
      (GLO_L1_HZ + (glo_fcn : ℚ) * GLO_L1_DELTA_HZ)
  let valid_cp := decide (fcn ≤ MT1012_GLO_MAX_FCN) && cp1
  let l1 := { l1 with flags := { l1.flags with
    valid_cnr := valid_cnr, valid_pr := valid_pr, valid_cp := valid_cp,
    valid_lock := valid_cp } }
  let (l2, l2_pr, phr_pr_diff2, bit) :=
    decode_basic_l2_freq_data buff bit sat.obsL2
  let (l2, valid_cnr2, bit) := get_cnr l2 buff bit
  let (l2, valid_pr2) := construct_L2_code l2 l1 l2_pr
  let (l2, valid_cp2) := construct_L2_phase l2 l1 phr_pr_diff2
      (GLO_L2_HZ + (glo_fcn : ℚ) * GLO_L2_DELTA_HZ)
  let l2 := { l2 with flags := { l2.flags with
    valid_cnr := valid_cnr2, valid_pr := valid_pr2, valid_cp := valid_cp2,
    valid_lock := valid_cp2 } }
  ({ sat with svId := svId, fcn := fcn, obsL1 := l1, obsL2 := l2 }, bit)

/-! ## Legacy decoders -/

/-- Shared shape of `rtcm3_decode_1001`..`1004` (GPS header, 64 bits). -/
def rtcm3_decode_gps_obs (expected : Nat)
    (step : List Nat → Nat → RtcmSatData → RtcmSatData × Nat)
    (buff : List Nat) (msg : RtcmObsMessage) : LegacyResult :=
  let h := rtcm3_read_header buff
  let msg := { msg with header := h }
  if h.msg_num ≠ expected then
    { rc := .RC_MESSAGE_TYPE_MISMATCH, msg := msg, endBit := 64 }
  else if RTCM_MAX_TOW_MS < h.tow_ms then
    { rc := .RC_INVALID_MESSAGE, msg := msg, endBit := 64 }
  else
    let p := legacy_loop (step buff) h.n_sat 0 64 msg.sats
    { rc := .RC_OK, msg := { msg with sats := p.1 }, endBit := p.2 }

/-- Shared shape of `rtcm3_decode_1010`/`1012` (GLONASS header, 61 bits). -/
def rtcm3_decode_glo_obs (expected : Nat)
    (step : List Nat → Nat → RtcmSatData → RtcmSatData × Nat)
    (buff : List Nat) (msg : RtcmObsMessage) : LegacyResult :=
  let h := rtcm3_read_glo_header buff
  let msg := { msg with header := h }
  if h.msg_num ≠ expected then
    { rc := .RC_MESSAGE_TYPE_MISMATCH, msg := msg, endBit := 61 }
  else if RTCM_GLO_MAX_TOW_MS < h.tow_ms then
    { rc := .RC_INVALID_MESSAGE, msg := msg, endBit := 61 }
  else
    let p := legacy_loop (step buff) h.n_sat 0 61 msg.sats
    { rc := .RC_OK, msg := { msg with sats := p.1 }, endBit := p.2 }

/-- `rtcm3_decode_1001` (decode.c lines 359-392). -/
def rtcm3_decode_1001 (buff : List Nat) (msg : RtcmObsMessage) : LegacyResult :=
  rtcm3_decode_gps_obs 1001 rtcm3_decode_1001_sat buff msg

/-- `rtcm3_decode_1002` (decode.c lines 402-439). -/
def rtcm3_decode_1002 (buff : List Nat) (msg : RtcmObsMessage) : LegacyResult :=
  rtcm3_decode_gps_obs 1002 rtcm3_decode_1002_sat buff msg

/-- `rtcm3_decode_1003` (decode.c lines 449-493). -/
def rtcm3_decode_1003 (buff : List Nat) (msg : RtcmObsMessage) : LegacyResult :=
  rtcm3_decode_gps_obs 1003 rtcm3_decode_1003_sat buff msg

/-- `rtcm3_decode_1004` (decode.c lines 503-553). -/
def rtcm3_decode_1004 (buff : List Nat) (msg : RtcmObsMessage) : LegacyResult :=
  rtcm3_decode_gps_obs 1004 rtcm3_decode_1004_sat buff msg

/-- `rtcm3_decode_1010` (decode.c lines 704-746). -/
def rtcm3_decode_1010 (buff : List Nat) (msg : RtcmObsMessage) : LegacyResult :=
  rtcm3_decode_glo_obs 1010 rtcm3_decode_1010_sat buff msg

/-- `rtcm3_decode_1012` (decode.c lines 756-812). -/
def rtcm3_decode_1012 (buff : List Nat) (msg : RtcmObsMessage) : LegacyResult :=
  rtcm3_decode_glo_obs 1012 rtcm3_decode_1012_sat buff msg

/-- Body of a 1010 satellite loop as the spec's words describe it
(section 4.3 step 3: read `amb:u8` then `cnr:u8`); written only to be
compared with the actual `rtcm3_decode_1010_sat`, which reads a 7-bit
ambiguity. -/
def rtcm3_decode_1010_sat_claimed_amb8 (buff : List Nat) (bit : Nat)
    (sat : RtcmSatData) : RtcmSatData × Nat :=
  let sat := init_sat_data sat
  let svId := rtcm_getbitu buff bit 6
  let bit := bit + 6
  let (l1, l1_pr, phr_pr_diff, fcn, bit) :=
    decode_basic_glo_l1_freq_data buff bit sat.obsL1
  let amb := rtcm_getbitu buff bit 8
  let bit := bit + 8
  let (l1, valid_cnr, bit) := get_cnr l1 buff bit
  let glo_fcn : Int := (fcn : Int) - MT1012_GLO_FCN_OFFSET
  let (l1, valid_pr) := construct_L1_code l1 l1_pr (PRUNIT_GLO * (amb : ℚ))
  let (l1, cp1) := construct_L1_phase l1 phr_pr_diff
      (GLO_L1_HZ + (glo_fcn : ℚ) * GLO_L1_DELTA_HZ)
  let valid_cp := decide (fcn ≤ MT1012_GLO_MAX_FCN) && cp1
  let l1 := { l1 with flags := { l1.flags with
    valid_cnr := valid_cnr, valid_pr := valid_pr, valid_cp := valid_cp,
    valid_lock := valid_cp } }
  ({ sat with svId := svId, fcn := fcn, obsL1 := l1 }, bit)

/-- The 1010 decoder as the claim describes it (8-bit ambiguity);
for comparison with `rtcm3_decode_1010`. -/
def rtcm3_decode_1010_claimed_amb8 (buff : List Nat) (msg : RtcmObsMessage) :
    LegacyResult :=
  rtcm3_decode_glo_obs 1010 rtcm3_decode_1010_sat_claimed_amb8 buff msg

/-! ## 1230: code-phase bias -/

/-- `rtcm_msg_1230`. -/
structure RtcmMsg1230 where
  stn_id : Nat := 0
  bias_indicator : Nat := 0
  fdma_signal_mask : Nat := 0
  L1_CA_cpb_meter : ℚ := 0
  L1_P_cpb_meter : ℚ := 0
  L2_CA_cpb_meter : ℚ := 0
  L2_P_cpb_meter : ℚ := 0
deriving DecidableEq, Repr

/-- `rtcm3_decode_1230` (decode.c lines 910-954): each of the four 16-bit
biases is read only when its `fdma_signal_mask` bit is set, in the order
L1-CA (0x08), L1-P (0x04), L2-CA (0x02), L2-P (0x01); present biases are
scaled by 0.02, absent ones are set to 0.0.  The 3 reserved bits after the
bias indicator are skipped. -/
def rtcm3_decode_1230 (buff : List Nat) (msg : RtcmMsg1230) :
    Rc × RtcmMsg1230 :=
  if rtcm_getbitu buff 0 12 ≠ 1230 then (.RC_MESSAGE_TYPE_MISMATCH, msg)
  else
    let stn_id := rtcm_getbitu buff 12 12
    let bias_indicator := rtcm_getbitu buff 24 1
    let mask := rtcm_getbitu buff 28 4
    let bit := 32
    let (l1ca, bit) :=
      if mask &&& 8 ≠ 0 then ((rtcm_getbits buff bit 16 : ℚ) * (1 / 50), bit + 16)
      else ((0 : ℚ), bit)
    let (l1p, bit) :=
      if mask &&& 4 ≠ 0 then ((rtcm_getbits buff bit 16 : ℚ) * (1 / 50), bit + 16)
      else ((0 : ℚ), bit)
    let (l2ca, bit) :=
      if mask &&& 2 ≠ 0 then ((rtcm_getbits buff bit 16 : ℚ) * (1 / 50), bit + 16)
      else ((0 : ℚ), bit)
    let (l2p, _bit) :=
      if mask &&& 1 ≠ 0 then ((rtcm_getbits buff bit 16 : ℚ) * (1 / 50), bit + 16)
      else ((0 : ℚ), bit)
    (.RC_OK, { stn_id := stn_id, bias_indicator := bias_indicator,
               fdma_signal_mask := mask, L1_CA_cpb_meter := l1ca,
               L1_P_cpb_meter := l1p, L2_CA_cpb_meter := l2ca,
               L2_P_cpb_meter := l2p })

/-! ## 4062: Swift proprietary wrapper -/

/-- `rtcm_msg_swift_proprietary`.  The C `data[]` array is modelled as a
list; the decoder overwrites its first `len` bytes. -/
structure RtcmMsgSwiftProprietary where
  msg_type : Nat := 0
  sender_id : Nat := 0
  len : Nat := 0
  data : List Nat := []
deriving DecidableEq, Repr

/-- `rtcm3_decode_4062` (decode.c lines 1374-1407): after the 12-bit message
number come 4 reserved bits; when they are nonzero the decoder returns
`RC_INVALID_MESSAGE` before writing any output field. -/
def rtcm3_decode_4062 (buff : List Nat) (msg : RtcmMsgSwiftProprietary) :
    Rc × RtcmMsgSwiftProprietary :=
  if rtcm_getbitu buff 0 12 ≠ 4062 then (.RC_MESSAGE_TYPE_MISMATCH, msg)
  else if rtcm_getbitu buff 12 4 ≠ 0 then (.RC_INVALID_MESSAGE, msg)
  else
    let len := rtcm_getbitu buff 48 8
    (.RC_OK,
     { msg_type := rtcm_getbitu buff 16 16
       sender_id := rtcm_getbitu buff 32 16
       len := len
       data := (List.range len).map (fun i => rtcm_getbitu buff (56 + 8 * i) 8)
               ++ msg.data.drop len })

/-! ## MSM engine -/

/-- `rtcm_constellation_t`. -/
inductive RtcmConstellation where
  | GPS | SBAS | GLO | BDS | QZS | GAL | NAVIC | INVALID
deriving DecidableEq, Repr

/-- `msm_enum`. -/
inductive MsmEnum where
  | MSM_UNKNOWN | MSM4 | MSM5 | MSM6 | MSM7
deriving DecidableEq, Repr

/-- Modelled from the spec: `to_constellation` of `msm_utils.c` is not under
`src/`.  Spec section 4.6: ranges 1071-1077 GPS, 1081-1087 GLO, 1091-1097
GAL, 1101-1107 SBAS, 1111-1117 QZSS, 1121-1127 BDS, 1131-1137 NavIC. -/
def to_constellation (n : Nat) : RtcmConstellation :=
  if 1071 ≤ n ∧ n ≤ 1077 then .GPS
  else if 1081 ≤ n ∧ n ≤ 1087 then .GLO
  else if 1091 ≤ n ∧ n ≤ 1097 then .GAL
  else if 1101 ≤ n ∧ n ≤ 1107 then .SBAS
  else if 1111 ≤ n ∧ n ≤ 1117 then .QZS
  else if 1121 ≤ n ∧ n ≤ 1127 then .BDS
  else if 1131 ≤ n ∧ n ≤ 1137 then .NAVIC
  else .INVALID

/-- Modelled from the spec: `to_msm_type` of `msm_utils.c` is not under
`src/`.  Within the MSM message-number ranges the last decimal digit selects
MSM4..MSM7 (spec sections 4.5-4.6). -/
def to_msm_type (n : Nat) : MsmEnum :=
  if 1071 ≤ n ∧ n ≤ 1137 then
    if n % 10 = 4 then .MSM4
    else if n % 10 = 5 then .MSM5
    else if n % 10 = 6 then .MSM6
    else if n % 10 = 7 then .MSM7
    else .MSM_UNKNOWN
  else .MSM_UNKNOWN

/-- Modelled from the spec: `count_mask_values` of `msm_utils.c` is not under
`src/`; it counts the set entries of a bitmap (spec section 3:
`num_sats = popcount(satellite_mask)` etc.). -/
def count_mask_values (mask : List Bool) : Nat := mask.count true

/-- `normalize_bds2_tow` (decode.c lines 228-234): unwrap an underflowed
30-bit Beidou time of week. -/
def normalize_bds2_tow (tow_ms : Nat) : Nat :=
  if C_2P30 - BDS_SECOND_TO_GPS_SECOND * 1000 ≤ tow_ms then
    RTCM_MAX_TOW_MS + 1 - (C_2P30 - tow_ms)
  else tow_ms

/-- Satellite mask bits, read at bit offsets 73..136 (decode.c 275-278). -/
def msm_satellite_mask (buff : List Nat) : List Bool :=
  (List.range MSM_SATELLITE_MASK_SIZE).map
    (fun i => decide (rtcm_getbitu buff (73 + i) 1 = 1))

/-- Signal mask bits, read at bit offsets 137..168 (decode.c 279-282). -/
def msm_signal_mask (buff : List Nat) : List Bool :=
  (List.range MSM_SIGNAL_MASK_SIZE).map
    (fun i => decide (rtcm_getbitu buff (137 + i) 1 = 1))

def msm_num_sats (buff : List Nat) : Nat :=
  count_mask_values (msm_satellite_mask buff)

def msm_num_sigs (buff : List Nat) : Nat :=
  count_mask_values (msm_signal_mask buff)

/-- The number of cell-mask bits the header reader consumes:
`uint8_t cell_mask_size = num_sats * num_sigs` truncates modulo 256
(decode.c line 287). -/
def msm_cell_mask_size (buff : List Nat) : Nat :=
  msm_num_sats buff * msm_num_sigs buff % 256

/-- Cell mask bits, read at offsets 169.. (decode.c 289-292). -/
def msm_cell_mask (buff : List Nat) : List Bool :=
  (List.range (msm_cell_mask_size buff)).map
    (fun i => decide (rtcm_getbitu buff (169 + i) 1 = 1))

/-- Bit position directly after the MSM header (same for every
constellation: the GLONASS 3 + 27 bits equal the others' 30). -/
def msm_header_end (buff : List Nat) : Nat := 169 + msm_cell_mask_size buff

/-- `rtcm_msm_header`. -/
structure RtcmMsmHeader where
  msg_num : Nat := 0
  stn_id : Nat := 0
  tow_ms : Nat := 0
  multiple : Nat := 0
  iods : Nat := 0
  reserved : Nat := 0
  steering : Nat := 0
  ext_clock : Nat := 0
  div_free : Nat := 0
  smooth : Nat := 0
  satellite_mask : List Bool := []
  signal_mask : List Bool := []
  cell_mask : List Bool := []
deriving DecidableEq, Repr

/-- `rtcm3_read_msm_header` (decode.c lines 236-294).  Field offsets:
`msg_num` 0..11, `stn_id` 12..23, tow 24..53 (GLONASS: 3 skipped
day-of-week bits then a 27-bit time of day; Beidou: 30 bits then
`normalize_bds2_tow`), `multiple` 54, `iods` 55..57, `reserved` 58..64,
`steering` 65..66, `ext_clock` 67..68, `div_free` 69, `smooth` 70..72,
then the three masks.  Returns the header and the advanced cursor. -/
def rtcm3_read_msm_header (buff : List Nat) (cons : RtcmConstellation) :
    RtcmMsmHeader × Nat :=
  ({ msg_num := rtcm_getbitu buff 0 12
     stn_id := rtcm_getbitu buff 12 12
     tow_ms :=
       if cons = .GLO then rtcm_getbitu buff 27 27
       else if cons = .BDS then normalize_bds2_tow (rtcm_getbitu buff 24 30)
       else rtcm_getbitu buff 24 30
     multiple := rtcm_getbitu buff 54 1
     iods := rtcm_getbitu buff 55 3
     reserved := rtcm_getbitu buff 58 7
     steering := rtcm_getbitu buff 65 2
     ext_clock := rtcm_getbitu buff 67 2
     div_free := rtcm_getbitu buff 69 1
     smooth := rtcm_getbitu buff 70 3
     satellite_mask := msm_satellite_mask buff
     signal_mask := msm_signal_mask buff
     cell_mask := msm_cell_mask buff },
   msm_header_end buff)

/-- Scale factors `C_1_2P24`, `C_1_2P29`, `C_1_2P31`, `C_1_2P4`
(constants.h, modelled from the spec's section 4.5 table). -/
def C_1_2P24 : ℚ := 1 / 16777216
def C_1_2P29 : ℚ := 1 / 536870912
def C_1_2P31 : ℚ := 1 / 2147483648
def C_1_2P4 : ℚ := 1 / 16

/-- The per-satellite scratch arrays filled by `decode_msm_sat_data`. -/
structure MsmSatArrays where
  rough_range_ms : List ℚ
  rough_range_valid : List Bool
  sat_info : List Nat
  sat_info_valid : List Bool
  rough_rate_m_s : List ℚ
  rough_rate_valid : List Bool
  endBit : Nat
deriving DecidableEq, Repr

/-- `decode_msm_sat_data` (decode.c lines 956-1008).  Field blocks, in wire
order: `integer_ms:u8` per satellite (sentinel 255 invalid), `sat_info:u4`
per satellite (MSM5/7 only), `rough_mod_1ms:u10` per satellite (added as
`x/1024` only when the rough range is valid), `rough_rate:i14` per satellite
(MSM5/7 only, sentinel -8192 invalid). -/
def decode_msm_sat_data (buff : List Nat) (num_sats : Nat) (t : MsmEnum)
    (bit : Nat) : MsmSatArrays :=
  let ext := t == .MSM5 || t == .MSM7
  let rr := fun s => rtcm_getbitu buff (bit + 8 * s) 8
  let siBase := bit + 8 * num_sats
  let modBase := siBase + (if ext then 4 * num_sats else 0)
  let rateBase := modBase + 10 * num_sats
  { rough_range_ms := (List.range num_sats).map (fun s =>
      (rr s : ℚ) +
        if rr s ≠ MSM_ROUGH_RANGE_INVALID then
          (rtcm_getbitu buff (modBase + 10 * s) 10 : ℚ) / 1024
        else 0)
    rough_range_valid := (List.range num_sats).map
      (fun s => decide (rr s ≠ MSM_ROUGH_RANGE_INVALID))
    sat_info := (List.range num_sats).map
      (fun s => if ext then rtcm_getbitu buff (siBase + 4 * s) 4 else 0)
    sat_info_valid := (List.range num_sats).map (fun _ => ext)
    rough_rate_m_s := (List.range num_sats).map
      (fun s => if ext then ((rtcm_getbits buff (rateBase + 14 * s) 14 : ℚ)) else 0)
    rough_rate_valid := (List.range num_sats).map
      (fun s => ext && decide (rtcm_getbits buff (rateBase + 14 * s) 14 ≠
        MSM_ROUGH_RATE_INVALID))
    endBit := rateBase + (if ext then 14 * num_sats else 0) }

/-- The per-cell scratch arrays filled by the signal-block decoding stages
(decode.c lines 1010-1145 and the stage calls at 1236-1263). -/
structure MsmSignalArrays where
  fine_pr_ms : List ℚ
  fine_cp_ms : List ℚ
  lock_time : List ℚ
  hca : List Bool
  cnr : List ℚ
  fine_rate : List ℚ
  flags : List FlagBf
  endBit : Nat
deriving DecidableEq, Repr

/-- The signal-block stages in wire order.  MSM4/5 use fine 15-bit
pseudoranges (x 2^-24 ms), 22-bit phases (x 2^-29), 4-bit locks and 6-bit
CNRs; MSM6/7 the extended 20-bit (x 2^-29), 24-bit (x 2^-31), 10-bit lock
and 10-bit CNR (x 2^-4); both then the 1-bit half-cycle-ambiguity flags;
MSM5/7 close with 15-bit fine rates (x 0.0001, sentinel -16384).  Every
stage sets its own flag field; the lock stage sets `valid_lock = 1` for
every cell. -/
def decode_msm_signal_data (buff : List Nat) (t : MsmEnum) (num_cells : Nat)
    (bit : Nat) : MsmSignalArrays :=
  let extSz := t == .MSM6 || t == .MSM7
  let hasRate := t == .MSM5 || t == .MSM7
  let prW := if extSz then 20 else 15
  let cpW := if extSz then 24 else 22
  let lockW := if extSz then 10 else 4
  let cnrW := if extSz then 10 else 6
  let prBase := bit
  let cpBase := prBase + prW * num_cells
  let lockBase := cpBase + cpW * num_cells
  let hcaBase := lockBase + lockW * num_cells
  let cnrBase := hcaBase + num_cells
  let rateBase := cnrBase + cnrW * num_cells
  let prRaw := fun k => rtcm_getbits buff (prBase + prW * k) prW
  let cpRaw := fun k => rtcm_getbits buff (cpBase + cpW * k) cpW
  let lockRaw := fun k => rtcm_getbitu buff (lockBase + lockW * k) lockW
  let cnrRaw := fun k => rtcm_getbitu buff (cnrBase + cnrW * k) cnrW
  let rateRaw := fun k => rtcm_getbits buff (rateBase + 15 * k) 15
  { fine_pr_ms := (List.range num_cells).map
      (fun k => (prRaw k : ℚ) * (if extSz then C_1_2P29 else C_1_2P24))
    fine_cp_ms := (List.range num_cells).map
      (fun k => (cpRaw k : ℚ) * (if extSz then C_1_2P31 else C_1_2P29))
    lock_time := (List.range num_cells).map
      (fun k => if extSz then ((from_msm_lock_ind_ext (lockRaw k) : ℚ)) / 1000
                else rtcm3_decode_lock_time (lockRaw k))
    hca := (List.range num_cells).map
      (fun k => decide (rtcm_getbitu buff (hcaBase + k) 1 = 1))
    cnr := (List.range num_cells).map
      (fun k => if extSz then (cnrRaw k : ℚ) * C_1_2P4 else (cnrRaw k : ℚ))
    fine_rate := (List.range num_cells).map
      (fun k => if hasRate then (rateRaw k : ℚ) * (1 / 10000) else 0)
    flags := (List.range num_cells).map (fun k =>
      { valid_pr := decide (prRaw k ≠
          (if extSz then MSM_PR_EXT_INVALID else MSM_PR_INVALID))
        valid_cp := decide (cpRaw k ≠
          (if extSz then MSM_CP_EXT_INVALID else MSM_CP_INVALID))
        valid_lock := true
        valid_cnr := decide (cnrRaw k ≠ 0)
        valid_dop := hasRate && decide (rateRaw k ≠ MSM_DOP_INVALID) })
    endBit := rateBase + (if hasRate then 15 * num_cells else 0) }

/-- `rtcm_msm_sat_data`: per-satellite output of an MSM decode. -/
structure RtcmMsmSat where
  rough_range_ms : ℚ := 0
  rough_range_rate_m_s : ℚ := 0
  glo_fcn : Nat := 0
deriving DecidableEq, Repr

/-- `rtcm_msm_signal_data`: per-cell output of an MSM decode. -/
structure RtcmMsmSignal where
  pseudorange_ms : ℚ := 0
  carrier_phase_ms : ℚ := 0
  lock_time_s : ℚ := 0
  hca_indicator : Bool := false
  cnr : ℚ := 0
  range_rate_m_s : ℚ := 0
  flags : FlagBf := {}
deriving DecidableEq, Repr

/-- `rtcm_msm_message`. -/
structure RtcmMsmMessage where
  header : RtcmMsmHeader := {}
  sats : List RtcmMsmSat := []
  signals : List RtcmMsmSignal := []
deriving DecidableEq, Repr

/-- The cell indices (row-major positions `sat * num_sigs + sig`) whose
cell-mask bit is set, in increasing order; the assembly loop of
decode.c lines 1265-1309 writes `signals[k]` from the k-th such position. -/
def msm_present_cells (cellMask : List Bool) : List Nat :=
  (List.range cellMask.length).filter (fun j => cellMask.getD j false)

/-- One iteration of the assembly loop (decode.c lines 1275-1307) for the
k-th present cell: combine rough and fine components; an invalid rough range
forces `valid_pr`/`valid_cp` to false, an invalid rough rate (or MSM4/6)
forces `valid_dop` to false; CNR is zeroed when invalid. -/
def msm_assemble_signal (sa : MsmSatArrays) (sg : MsmSignalArrays)
    (num_sigs : Nat) (cells : List Nat) (k : Nat) : RtcmMsmSignal :=
  let j := cells.getD k 0
  let s := j / num_sigs
  let fl := sg.flags.getD k {}
  let rrv := sa.rough_range_valid.getD s false
  let rov := sa.rough_rate_valid.getD s false
  let vpr := rrv && fl.valid_pr
  let vcp := rrv && fl.valid_cp
  let vdop := rov && fl.valid_dop
  { pseudorange_ms :=
      if vpr then sa.rough_range_ms.getD s 0 + sg.fine_pr_ms.getD k 0 else 0
    carrier_phase_ms :=
      if vcp then sa.rough_range_ms.getD s 0 + sg.fine_cp_ms.getD k 0 else 0
    lock_time_s := sg.lock_time.getD k 0
    hca_indicator := sg.hca.getD k false
    cnr := if fl.valid_cnr then sg.cnr.getD k 0 else 0
    range_rate_m_s :=
      if vdop then sa.rough_rate_m_s.getD s 0 + sg.fine_rate.getD k 0 else 0
    flags := { fl with valid_pr := vpr, valid_cp := vcp, valid_dop := vdop } }

/-- The satellite output record (decode.c lines 1266-1273). -/
def msm_assemble_sat (cons : RtcmConstellation) (sa : MsmSatArrays)
    (s : Nat) : RtcmMsmSat :=
  { rough_range_ms := sa.rough_range_ms.getD s 0
    rough_range_rate_m_s := sa.rough_rate_m_s.getD s 0
    glo_fcn :=
      if cons = .GLO ∧ sa.sat_info_valid.getD s false = false then
        MSM_GLO_FCN_UNKNOWN
      else sa.sat_info.getD s 0 }

/-- `rtcm3_decode_msm_internal` (decode.c lines 1156-1312). -/
def rtcm3_decode_msm_internal (buff : List Nat) (t : MsmEnum)
    (msg : RtcmMsmMessage) : Rc × RtcmMsmMessage :=
  if ¬(t = .MSM4 ∨ t = .MSM5 ∨ t = .MSM6 ∨ t = .MSM7) then
    (.RC_MESSAGE_TYPE_MISMATCH, msg)
  else
    let msg_num := rtcm_getbitu buff 0 12
    let msg1 := { msg with header := { msg.header with msg_num := msg_num } }
    if to_msm_type msg_num ≠ t then (.RC_MESSAGE_TYPE_MISMATCH, msg1)
    else
      let cons := to_constellation msg_num
      if cons = .INVALID then (.RC_MESSAGE_TYPE_MISMATCH, msg1)
      else
        let p := rtcm3_read_msm_header buff cons
        let h := p.1
        let msg2 := { msg1 with header := h }
        if (if cons = .GLO then RTCM_GLO_MAX_TOW_MS < h.tow_ms
            else RTCM_MAX_TOW_MS < h.tow_ms) then
          (.RC_INVALID_MESSAGE, msg2)
        else
          let num_sats := count_mask_values h.satellite_mask
          let num_sigs := count_mask_values h.signal_mask
          if MSM_MAX_CELLS < num_sats * num_sigs then
            (.RC_INVALID_MESSAGE, msg2)
          else
            let num_cells := count_mask_values h.cell_mask
            let sa := decode_msm_sat_data buff num_sats t p.2
            let sg := decode_msm_signal_data buff t num_cells sa.endBit
            let cells := msm_present_cells h.cell_mask
            (.RC_OK,
             { msg2 with
               sats := (List.range num_sats).map (msm_assemble_sat cons sa)
                       ++ msg.sats.drop num_sats
               signals := (List.range num_cells).map
                            (msm_assemble_signal sa sg num_sigs cells)
                          ++ msg.signals.drop num_cells })

/-- `rtcm3_decode_msm4` (decode.c lines 1322-1325). -/
def rtcm3_decode_msm4 (buff : List Nat) (msg : RtcmMsmMessage) :
    Rc × RtcmMsmMessage :=
  rtcm3_decode_msm_internal buff .MSM4 msg

/-- `rtcm3_decode_msm5` (decode.c lines 1335-1338). -/
def rtcm3_decode_msm5 (buff : List Nat) (msg : RtcmMsmMessage) :
    Rc × RtcmMsmMessage :=
  rtcm3_decode_msm_internal buff .MSM5 msg

/-- `rtcm3_decode_msm6` (decode.c lines 1348-1351). -/
def rtcm3_decode_msm6 (buff : List Nat) (msg : RtcmMsmMessage) :
    Rc × RtcmMsmMessage :=
  rtcm3_decode_msm_internal buff .MSM6 msg

/-- `rtcm3_decode_msm7` (decode.c lines 1361-1364). -/
def rtcm3_decode_msm7 (buff : List Nat) (msg : RtcmMsmMessage) :
    Rc × RtcmMsmMessage :=
  rtcm3_decode_msm_internal buff .MSM7 msg

/-! ## Concrete buffers used by witnesses and counterexamples -/

def buf1012_fcn21 : List Nat := [63, 64, 0, 0, 0, 0, 0, 128, 106, 128, 0, 250, 0, 0, 0, 40, 166, 68, 0, 112, 0, 0, 10, 160]
def buf1010_amb : List Nat := [63, 32, 0, 0, 0, 0, 0, 128, 66, 0, 1, 244, 0, 0, 12, 51, 248, 0]
def bufMsm4_too_many_cells : List Nat := [67, 32, 0, 0, 0, 0, 0, 0, 0, 127, 252, 0, 0, 0, 0, 0, 0, 124, 0, 0, 0, 0]
def bufMsm4_rough_invalid : List Nat := [67, 32, 0, 0, 0, 0, 0, 0, 0, 64, 0, 0, 0, 0, 0, 0, 0, 64, 0, 0, 0, 127, 198, 64, 0, 191, 255, 252, 157, 64]
def bufMsm5_all_invalid : List Nat := [67, 48, 0, 0, 0, 0, 0, 0, 0, 64, 0, 0, 0, 0, 0, 0, 0, 96, 0, 0, 0, 127, 232, 0, 64, 1, 0, 2, 0, 4, 0, 0, 16, 0, 0, 0, 0, 1, 0, 2, 0, 0]
def bufMsm7_bds_neg_tow : List Nat := [70, 112, 0, 255, 255, 177, 224, 0, 0, 0, 0, 0, 0, 0, 0, 0, 0, 0, 0, 0, 0, 0]
def buf4062_reserved : List Nat := [253, 226, 3, 9, 0, 42, 2, 171, 205]
def buf1230_mask1010 : List Nat := [76, 224, 9, 138, 0, 150, 255, 206]
def buf1004_onesat : List Nat := [62, 192, 0, 0, 0, 0, 0, 16, 29, 49, 45, 0, 0, 154, 64, 148, 35, 0, 1, 128, 0, 20, 11, 192]

/-- An initial caller record with one scratch satellite slot. -/
def obsMsg0 : RtcmObsMessage := { sats := [{}] }

/-- An initial caller MSM record. -/
def msmMsg0 : RtcmMsmMessage := {}

/-- A nontrivial prior 4062 record, to exhibit that error returns leave it
untouched. -/
def swiftMsg0 : RtcmMsgSwiftProprietary :=
  { msg_type := 5, sender_id := 6, len := 1, data := [9] }

/-- An initial caller 1230 record. -/
def msg1230_0 : RtcmMsg1230 := {}

/-! ## Shared list lemmas -/

lemma getD_set_ne {α : Type} (l : List α) {i j : Nat} (v : α) (d : α)
    (h : i ≠ j) : (l.set i v).getD j d = l.getD j d := by
  simp [List.getD_eq_getElem?_getD, List.getElem?_set_ne h]

lemma getD_set_self {α : Type} (l : List α) {i : Nat} (v : α) (d : α)
    (h : i < l.length) : (l.set i v).getD i d = v := by
  simp [List.getD_eq_getElem?_getD, List.getElem?_set_self, h]

lemma getD_range_map {α : Type} (f : Nat → α) {n k : Nat} (d : α)
    (h : k < n) : ((List.range n).map f).getD k d = f k := by
  simp [List.getD_eq_getElem?_getD, List.getElem?_map, List.getElem?_range h]

lemma getD_append_left {α : Type} (l l' : List α) {k : Nat} (d : α)
    (h : k < l.length) : ((l ++ l').getD k d) = l.getD k d := by
  simp [List.getD_eq_getElem?_getD, List.getElem?_append, h]

/-! ## Satellite-loop lemmas

The legacy satellite loops advance the cursor by a fixed per-message stride;
these lemmas locate satellite `i`'s wire position. -/

lemma legacy_loop_endBit (step : Nat → RtcmSatData → RtcmSatData × Nat)
    (stride : Nat) (hstep : ∀ bit s, (step bit s).2 = bit + stride) :
    ∀ (n i bit : Nat) (sats : List RtcmSatData),
      (legacy_loop step n i bit sats).2 = bit + stride * n := by
  intro n
  induction n with
  | zero => intro i bit sats; simp [legacy_loop]
  | succ m ih =>
    intro i bit sats
    simp only [legacy_loop]
    rw [ih, hstep]
    ring

lemma legacy_loop_length (step : Nat → RtcmSatData → RtcmSatData × Nat) :
    ∀ (n i bit : Nat) (sats : List RtcmSatData),
      (legacy_loop step n i bit sats).1.length = sats.length := by
  intro n
  induction n with
  | zero => intro i bit sats; simp [legacy_loop]
  | succ m ih => intro i bit sats; simp [legacy_loop, ih]

lemma legacy_loop_getD_lt (step : Nat → RtcmSatData → RtcmSatData × Nat) :
    ∀ (n i bit : Nat) (sats : List RtcmSatData) (j : Nat) (d : RtcmSatData),
      j < i → (legacy_loop step n i bit sats).1.getD j d = sats.getD j d := by
  intro n
  induction n with
  | zero => intro i bit sats j d _; simp [legacy_loop]
  | succ m ih =>
    intro i bit sats j d hj
    simp only [legacy_loop]
    rw [ih _ _ _ _ _ (Nat.lt_succ_of_lt hj),
        getD_set_ne _ _ _ (Nat.ne_of_gt hj)]

lemma legacy_loop_getD (step : Nat → RtcmSatData → RtcmSatData × Nat)
    (stride : Nat) (hstep : ∀ bit s, (step bit s).2 = bit + stride) :
    ∀ (n k i bit : Nat) (sats : List RtcmSatData) (d : RtcmSatData),
      k < n → i + k < sats.length →
      (legacy_loop step n i bit sats).1.getD (i + k) d =
        (step (bit + stride * k) (sats.getD (i + k) ({} : RtcmSatData))).1 := by
  intro n
  induction n with
  | zero => intro k i bit sats d hk; exact absurd hk (Nat.not_lt_zero k)
  | succ m ih =>
    intro k i bit sats d hk hlen
    match k with
    | 0 =>
      simp only [Nat.add_zero, Nat.mul_zero] at *
      simp only [legacy_loop]
      rw [legacy_loop_getD_lt _ _ _ _ _ _ _ (Nat.lt_succ_self i),
          getD_set_self _ _ _ hlen]
    | j + 1 =>
      simp only [legacy_loop]
      have h1 : i + (j + 1) = (i + 1) + j := by omega
      have h2 : (i + 1) + j < (sats.set i (step bit (sats.getD i {})).1).length := by
        rw [List.length_set]; omega
      rw [h1, ih j (i + 1) _ _ d (Nat.lt_of_succ_lt_succ hk) h2,
          getD_set_ne _ _ _ (by omega), hstep]
      have h3 : bit + stride + stride * j = bit + stride * (j + 1) := by ring
      rw [h3, ← h1]

/-! ## Per-satellite stride facts -/

lemma rtcm3_decode_1001_sat_endBit (buff : List Nat) (bit : Nat)
    (s : RtcmSatData) : (rtcm3_decode_1001_sat buff bit s).2 = bit + 58 := rfl

lemma rtcm3_decode_1002_sat_endBit (buff : List Nat) (bit : Nat)
    (s : RtcmSatData) : (rtcm3_decode_1002_sat buff bit s).2 = bit + 74 := rfl

lemma rtcm3_decode_1003_sat_endBit (buff : List Nat) (bit : Nat)
    (s : RtcmSatData) : (rtcm3_decode_1003_sat buff bit s).2 = bit + 101 := rfl

lemma rtcm3_decode_1004_sat_endBit (buff : List Nat) (bit : Nat)
    (s : RtcmSatData) : (rtcm3_decode_1004_sat buff bit s).2 = bit + 125 := rfl

lemma rtcm3_decode_1010_sat_endBit (buff : List Nat) (bit : Nat)
    (s : RtcmSatData) : (rtcm3_decode_1010_sat buff bit s).2 = bit + 79 := rfl

lemma rtcm3_decode_1012_sat_endBit (buff : List Nat) (bit : Nat)
    (s : RtcmSatData) : (rtcm3_decode_1012_sat buff bit s).2 = bit + 130 := rfl

lemma legacy_loop_getD0 (step : Nat → RtcmSatData → RtcmSatData × Nat)
    (stride : Nat) (hstep : ∀ bit s, (step bit s).2 = bit + stride)
    (n k bit : Nat) (sats : List RtcmSatData) (d : RtcmSatData)
    (hk : k < n) (hlen : k < sats.length) :
    (legacy_loop step n 0 bit sats).1.getD k d =
      (step (bit + stride * k) (sats.getD k ({} : RtcmSatData))).1 := by
  have h := legacy_loop_getD step stride hstep n k 0 bit sats d hk
    (by simpa using hlen)
  simpa using h

/-! ## Claim theorems -/

set_option maxRecDepth 8000 in
/-- C6: for every lock indicator in [0, 127], the 7-bit lock-time expansion
`from_lock_ind` is monotonic non-decreasing, attains 937 at the top of the
range, and never exceeds 937. -/
theorem from_lock_ind_monotone_saturates :
    (∀ a < 128, ∀ b < 128, a ≤ b → from_lock_ind a ≤ from_lock_ind b) ∧
    from_lock_ind 127 = 937 ∧ (∀ l < 128, from_lock_ind l ≤ 937) := by
  decide

/-- C6 witness: the theorem applied at lock indicators 5, 100 and 127. -/
theorem from_lock_ind_monotone_saturates_witness :
    from_lock_ind 5 ≤ from_lock_ind 100 ∧ from_lock_ind 127 = 937 ∧
    from_lock_ind 100 ≤ 937 :=
  ⟨from_lock_ind_monotone_saturates.1 5 (by decide) 100 (by decide) (by decide),
   from_lock_ind_monotone_saturates.2.1,
   from_lock_ind_monotone_saturates.2.2 100 (by decide)⟩

/-- C9: every legacy observable decoder (1001, 1002, 1003, 1004, 1010, 1012)
writes the header parsed from the buffer into the caller's record first, so
even on a `RC_MESSAGE_TYPE_MISMATCH` or `RC_INVALID_MESSAGE` return the
output record's header holds the values decoded from the buffer, not the
caller's previous ones (the error return is not atomic). -/
theorem legacy_header_written_before_checks (buff : List Nat)
    (msg : RtcmObsMessage) :
    (rtcm3_decode_1001 buff msg).msg.header = rtcm3_read_header buff ∧
    (rtcm3_decode_1002 buff msg).msg.header = rtcm3_read_header buff ∧
    (rtcm3_decode_1003 buff msg).msg.header = rtcm3_read_header buff ∧
    (rtcm3_decode_1004 buff msg).msg.header = rtcm3_read_header buff ∧
    (rtcm3_decode_1010 buff msg).msg.header = rtcm3_read_glo_header buff ∧
    (rtcm3_decode_1012 buff msg).msg.header = rtcm3_read_glo_header buff := by
  refine ⟨?_, ?_, ?_, ?_, ?_, ?_⟩ <;>
    first
    | (simp only [rtcm3_decode_1001, rtcm3_decode_1002, rtcm3_decode_1003,
        rtcm3_decode_1004, rtcm3_decode_gps_obs]
       split_ifs <;> rfl)
    | (simp only [rtcm3_decode_1010, rtcm3_decode_1012, rtcm3_decode_glo_obs]
       split_ifs <;> rfl)

/-- C1 counterexample: `buf1012_fcn21` is a 1012 message decoded with
`RC_OK` whose only satellite has stored `fcn = 21 > MT1012_GLO_MAX_FCN`,
yet its L2 observation has `valid_cp = true` — the claim says it must be
`false`.  (The `fcn` bound guards only the L1 carrier phase in
`rtcm3_decode_1012`.) -/
theorem mt1012_L2_fcn_bound_counterexample :
    (rtcm3_decode_1012 buf1012_fcn21 obsMsg0).rc = Rc.RC_OK ∧
    ((rtcm3_decode_1012 buf1012_fcn21 obsMsg0).msg.sats.getD 0 {}).fcn = 21 ∧
    MT1012_GLO_MAX_FCN < 21 ∧
    ((rtcm3_decode_1012 buf1012_fcn21 obsMsg0).msg.sats.getD 0
      {}).obsL2.flags.valid_cp = true := by
  decide

/-- C1 (amended): for every 1012 message decoded with `RC_OK`, the
`fcn ≤ MT1012_GLO_MAX_FCN (= 20)` requirement governs the **L1** carrier
phase: every satellite whose stored `fcn` exceeds 20 has L1
`valid_cp = false`; the L2 carrier-phase validity does not depend on `fcn`
and equals the `CP_INVALID` sentinel test of the satellite's L2
phaserange - pseudorange difference field (bits `61 + 130 i + 95 ..` of the
buffer). -/
theorem rtcm3_decode_1012_fcn_governs_L1_only (buff : List Nat)
    (msg : RtcmObsMessage) (i : Nat)
    (hrc : (rtcm3_decode_1012 buff msg).rc = Rc.RC_OK)
    (hi : i < (rtcm3_decode_1012 buff msg).msg.header.n_sat)
    (hlen : i < msg.sats.length)
    (hfcn : MT1012_GLO_MAX_FCN <
      ((rtcm3_decode_1012 buff msg).msg.sats.getD i {}).fcn) :
    ((rtcm3_decode_1012 buff msg).msg.sats.getD i {}).obsL1.flags.valid_cp
      = false ∧
    ((rtcm3_decode_1012 buff msg).msg.sats.getD i {}).obsL2.flags.valid_cp
      = decide (rtcm_getbits buff (61 + 130 * i + 95) 20 ≠ CP_INVALID) := by
  simp only [rtcm3_decode_1012, rtcm3_decode_glo_obs] at *
  split_ifs at hrc hi hfcn ⊢ with h1 h2
  dsimp only at hi hfcn ⊢
  rw [legacy_loop_getD0 _ 130 (rtcm3_decode_1012_sat_endBit buff) _ i _ _ _
    hi hlen] at hfcn ⊢
  have hnot : ¬ (((rtcm3_decode_1012_sat buff (61 + 130 * i)
      (msg.sats.getD i {})).1).fcn ≤ MT1012_GLO_MAX_FCN) := Nat.not_le.mpr hfcn
  simp only [rtcm3_decode_1012_sat, decode_basic_glo_l1_freq_data,
    decode_basic_l2_freq_data, get_cnr, construct_L1_code, construct_L1_phase,
    construct_L2_code, construct_L2_phase, init_sat_data] at hnot ⊢
  rw [decide_eq_false hnot]
  simp only [Bool.false_and]
  refine ⟨trivial, ?_⟩
  ring_nf

/-- C1 witness: the amended theorem applied to `buf1012_fcn21` (satellite 0,
stored fcn 21): its L1 phase is invalid while its L2 phase validity is the
sentinel test (which passes there). -/
theorem rtcm3_decode_1012_fcn_governs_L1_only_witness :
    ((rtcm3_decode_1012 buf1012_fcn21 obsMsg0).msg.sats.getD 0
      {}).obsL1.flags.valid_cp = false ∧
    ((rtcm3_decode_1012 buf1012_fcn21 obsMsg0).msg.sats.getD 0
      {}).obsL2.flags.valid_cp =
      decide (rtcm_getbits buf1012_fcn21 (61 + 130 * 0 + 95) 20 ≠
        CP_INVALID) :=
  rtcm3_decode_1012_fcn_governs_L1_only buf1012_fcn21 obsMsg0 0
    (by decide) (by decide) (by decide) (by decide)

/-! ### C2: the ambiguity / CNR block of the extended legacy messages

Helper lemmas, one per message type, locating the ambiguity and CNR fields
on the wire and the per-satellite stride. -/

lemma c2_layout_1002 (buff : List Nat) (msg : RtcmObsMessage)
    (hrc : (rtcm3_decode_1002 buff msg).rc = Rc.RC_OK) :
    (rtcm3_decode_1002 buff msg).endBit =
      64 + 74 * (rtcm3_decode_1002 buff msg).msg.header.n_sat ∧
    (∀ i, i < (rtcm3_decode_1002 buff msg).msg.header.n_sat →
      i < msg.sats.length →
      ((rtcm3_decode_1002 buff msg).msg.sats.getD i {}).obsL1.pseudorange =
        (1 / 50 : ℚ) * ((rtcm_getbitu buff (64 + 74 * i + 7) 24 : Int) : ℚ) +
          (rtcm_getbitu buff (64 + 74 * i + 58) 8 : ℚ) * PRUNIT_GPS ∧
      ((rtcm3_decode_1002 buff msg).msg.sats.getD i {}).obsL1.flags.valid_cnr =
        decide (rtcm_getbitu buff (64 + 74 * i + 66) 8 ≠ 0)) := by
  simp only [rtcm3_decode_1002, rtcm3_decode_gps_obs] at *
  split_ifs at hrc ⊢ with h1 h2
  dsimp only
  constructor
  · rw [legacy_loop_endBit _ 74 (rtcm3_decode_1002_sat_endBit buff)]
  · intro i hi hlen
    rw [legacy_loop_getD0 _ 74 (rtcm3_decode_1002_sat_endBit buff) _ i _ _ _
      hi hlen]
    simp only [rtcm3_decode_1002_sat, decode_basic_gps_l1_freq_data, get_cnr,
      construct_L1_code, construct_L1_phase, init_sat_data]
    constructor <;> ring_nf

lemma c2_layout_1004 (buff : List Nat) (msg : RtcmObsMessage)
    (hrc : (rtcm3_decode_1004 buff msg).rc = Rc.RC_OK) :
    (rtcm3_decode_1004 buff msg).endBit =
      64 + 125 * (rtcm3_decode_1004 buff msg).msg.header.n_sat ∧
    (∀ i, i < (rtcm3_decode_1004 buff msg).msg.header.n_sat →
      i < msg.sats.length →
      ((rtcm3_decode_1004 buff msg).msg.sats.getD i {}).obsL1.pseudorange =
        (1 / 50 : ℚ) * ((rtcm_getbitu buff (64 + 125 * i + 7) 24 : Int) : ℚ) +
          (rtcm_getbitu buff (64 + 125 * i + 58) 8 : ℚ) * PRUNIT_GPS ∧
      ((rtcm3_decode_1004 buff msg).msg.sats.getD i {}).obsL1.flags.valid_cnr =
        decide (rtcm_getbitu buff (64 + 125 * i + 66) 8 ≠ 0) ∧
      ((rtcm3_decode_1004 buff msg).msg.sats.getD i {}).obsL2.flags.valid_cnr =
        decide (rtcm_getbitu buff (64 + 125 * i + 117) 8 ≠ 0)) := by
  simp only [rtcm3_decode_1004, rtcm3_decode_gps_obs] at *
  split_ifs at hrc ⊢ with h1 h2
  dsimp only
  constructor
  · rw [legacy_loop_endBit _ 125 (rtcm3_decode_1004_sat_endBit buff)]
  · intro i hi hlen
    rw [legacy_loop_getD0 _ 125 (rtcm3_decode_1004_sat_endBit buff) _ i _ _ _
      hi hlen]
    simp only [rtcm3_decode_1004_sat, decode_basic_gps_l1_freq_data,
      decode_basic_l2_freq_data, get_cnr, construct_L1_code,
      construct_L1_phase, construct_L2_code, construct_L2_phase, init_sat_data]
    refine ⟨?_, ?_, ?_⟩ <;> ring_nf

lemma c2_layout_1010 (buff : List Nat) (msg : RtcmObsMessage)
    (hrc : (rtcm3_decode_1010 buff msg).rc = Rc.RC_OK) :
    (rtcm3_decode_1010 buff msg).endBit =
      61 + 79 * (rtcm3_decode_1010 buff msg).msg.header.n_sat ∧
    (∀ i, i < (rtcm3_decode_1010 buff msg).msg.header.n_sat →
      i < msg.sats.length →
      ((rtcm3_decode_1010 buff msg).msg.sats.getD i {}).obsL1.pseudorange =
        (1 / 50 : ℚ) * ((rtcm_getbitu buff (61 + 79 * i + 12) 25 : Int) : ℚ) +
          PRUNIT_GLO * (rtcm_getbitu buff (61 + 79 * i + 64) 7 : ℚ) ∧
      ((rtcm3_decode_1010 buff msg).msg.sats.getD i {}).obsL1.flags.valid_cnr =
        decide (rtcm_getbitu buff (61 + 79 * i + 71) 8 ≠ 0)) := by
  simp only [rtcm3_decode_1010, rtcm3_decode_glo_obs] at *
  split_ifs at hrc ⊢ with h1 h2
  dsimp only
  constructor
  · rw [legacy_loop_endBit _ 79 (rtcm3_decode_1010_sat_endBit buff)]
  · intro i hi hlen
    rw [legacy_loop_getD0 _ 79 (rtcm3_decode_1010_sat_endBit buff) _ i _ _ _
      hi hlen]
    simp only [rtcm3_decode_1010_sat, decode_basic_glo_l1_freq_data, get_cnr,
      construct_L1_code, construct_L1_phase, init_sat_data]
    constructor <;> ring_nf

lemma c2_layout_1012 (buff : List Nat) (msg : RtcmObsMessage)
    (hrc : (rtcm3_decode_1012 buff msg).rc = Rc.RC_OK) :
    (rtcm3_decode_1012 buff msg).endBit =
      61 + 130 * (rtcm3_decode_1012 buff msg).msg.header.n_sat ∧
    (∀ i, i < (rtcm3_decode_1012 buff msg).msg.header.n_sat →
      i < msg.sats.length →
      ((rtcm3_decode_1012 buff msg).msg.sats.getD i {}).obsL1.pseudorange =
        (1 / 50 : ℚ) * ((rtcm_getbitu buff (61 + 130 * i + 12) 25 : Int) : ℚ) +
          (rtcm_getbitu buff (61 + 130 * i + 64) 7 : ℚ) * PRUNIT_GLO ∧
      ((rtcm3_decode_1012 buff msg).msg.sats.getD i {}).obsL1.flags.valid_cnr =
        decide (rtcm_getbitu buff (61 + 130 * i + 71) 8 ≠ 0) ∧
      ((rtcm3_decode_1012 buff msg).msg.sats.getD i {}).obsL2.flags.valid_cnr =
        decide (rtcm_getbitu buff (61 + 130 * i + 122) 8 ≠ 0)) := by
  simp only [rtcm3_decode_1012, rtcm3_decode_glo_obs] at *
  split_ifs at hrc ⊢ with h1 h2
  dsimp only
  constructor
  · rw [legacy_loop_endBit _ 130 (rtcm3_decode_1012_sat_endBit buff)]
  · intro i hi hlen
    rw [legacy_loop_getD0 _ 130 (rtcm3_decode_1012_sat_endBit buff) _ i _ _ _
      hi hlen]
    simp only [rtcm3_decode_1012_sat, decode_basic_glo_l1_freq_data,
      decode_basic_l2_freq_data, get_cnr, construct_L1_code,
      construct_L1_phase, construct_L2_code, construct_L2_phase, init_sat_data]
    refine ⟨?_, ?_, ?_⟩ <;> ring_nf

/-- C2 counterexample: on the one-satellite 1010 message `buf1010_amb` the
decoder consumes 7 + 8 bits after the basic L1 block (final cursor
61 + 6 + 58 + 7 + 8 = 140, not the 61 + 6 + 58 + 8 + 8 = 141 the claim
dictates); reading an 8-bit ambiguity as the claim describes
(`rtcm3_decode_1010_claimed_amb8`) lands the CNR field one bit further and
on this buffer flips its validity. -/
theorem legacy_extended_amb8_counterexample :
    (rtcm3_decode_1010 buf1010_amb obsMsg0).rc = Rc.RC_OK ∧
    (rtcm3_decode_1010 buf1010_amb obsMsg0).msg.header.n_sat = 1 ∧
    (rtcm3_decode_1010 buf1010_amb obsMsg0).endBit = 61 + 6 + 58 + 7 + 8 ∧
    (rtcm3_decode_1010 buf1010_amb obsMsg0).endBit ≠ 61 + 6 + 58 + 8 + 8 ∧
    (rtcm3_decode_1010_claimed_amb8 buf1010_amb obsMsg0).endBit =
      61 + 6 + 58 + 8 + 8 ∧
    ((rtcm3_decode_1010 buf1010_amb obsMsg0).msg.sats.getD 0
      {}).obsL1.flags.valid_cnr = true ∧
    ((rtcm3_decode_1010_claimed_amb8 buf1010_amb obsMsg0).msg.sats.getD 0
      {}).obsL1.flags.valid_cnr = false := by
  decide

/-- C2 (amended): in every extended legacy observable message decoded with
`RC_OK`, each satellite's ambiguity field follows the basic L1 block and the
8-bit CNR field follows the ambiguity, but the ambiguity is 8 bits wide only
for GPS (1002, 1004); for GLONASS (1010, 1012) it is 7 bits wide.  The
cursor advances by exactly those widths: per-satellite strides 74, 125, 79
and 130 bits, and the decoded L1 pseudorange and CNR-validity are functions
of the fields at exactly those offsets. -/
theorem legacy_extended_amb_cnr_layout (buff : List Nat)
    (msg : RtcmObsMessage) :
    ((rtcm3_decode_1002 buff msg).rc = Rc.RC_OK →
      (rtcm3_decode_1002 buff msg).endBit =
        64 + 74 * (rtcm3_decode_1002 buff msg).msg.header.n_sat ∧
      (∀ i, i < (rtcm3_decode_1002 buff msg).msg.header.n_sat →
        i < msg.sats.length →
        ((rtcm3_decode_1002 buff msg).msg.sats.getD i {}).obsL1.pseudorange =
          (1 / 50 : ℚ) * ((rtcm_getbitu buff (64 + 74 * i + 7) 24 : Int) : ℚ) +
            (rtcm_getbitu buff (64 + 74 * i + 58) 8 : ℚ) * PRUNIT_GPS ∧
        ((rtcm3_decode_1002 buff msg).msg.sats.getD i
          {}).obsL1.flags.valid_cnr =
          decide (rtcm_getbitu buff (64 + 74 * i + 66) 8 ≠ 0))) ∧
    ((rtcm3_decode_1004 buff msg).rc = Rc.RC_OK →
      (rtcm3_decode_1004 buff msg).endBit =
        64 + 125 * (rtcm3_decode_1004 buff msg).msg.header.n_sat ∧
      (∀ i, i < (rtcm3_decode_1004 buff msg).msg.header.n_sat →
        i < msg.sats.length →
        ((rtcm3_decode_1004 buff msg).msg.sats.getD i {}).obsL1.pseudorange =
          (1 / 50 : ℚ) * ((rtcm_getbitu buff (64 + 125 * i + 7) 24 : Int) : ℚ) +
            (rtcm_getbitu buff (64 + 125 * i + 58) 8 : ℚ) * PRUNIT_GPS ∧
        ((rtcm3_decode_1004 buff msg).msg.sats.getD i
          {}).obsL1.flags.valid_cnr =
          decide (rtcm_getbitu buff (64 + 125 * i + 66) 8 ≠ 0) ∧
        ((rtcm3_decode_1004 buff msg).msg.sats.getD i
          {}).obsL2.flags.valid_cnr =
          decide (rtcm_getbitu buff (64 + 125 * i + 117) 8 ≠ 0))) ∧
    ((rtcm3_decode_1010 buff msg).rc = Rc.RC_OK →
      (rtcm3_decode_1010 buff msg).endBit =
        61 + 79 * (rtcm3_decode_1010 buff msg).msg.header.n_sat ∧
      (∀ i, i < (rtcm3_decode_1010 buff msg).msg.header.n_sat →
        i < msg.sats.length →
        ((rtcm3_decode_1010 buff msg).msg.sats.getD i {}).obsL1.pseudorange =
          (1 / 50 : ℚ) * ((rtcm_getbitu buff (61 + 79 * i + 12) 25 : Int) : ℚ) +
            PRUNIT_GLO * (rtcm_getbitu buff (61 + 79 * i + 64) 7 : ℚ) ∧
        ((rtcm3_decode_1010 buff msg).msg.sats.getD i
          {}).obsL1.flags.valid_cnr =
          decide (rtcm_getbitu buff (61 + 79 * i + 71) 8 ≠ 0))) ∧
    ((rtcm3_decode_1012 buff msg).rc = Rc.RC_OK →
      (rtcm3_decode_1012 buff msg).endBit =
        61 + 130 * (rtcm3_decode_1012 buff msg).msg.header.n_sat ∧
      (∀ i, i < (rtcm3_decode_1012 buff msg).msg.header.n_sat →
        i < msg.sats.length →
        ((rtcm3_decode_1012 buff msg).msg.sats.getD i {}).obsL1.pseudorange =
          (1 / 50 : ℚ) * ((rtcm_getbitu buff (61 + 130 * i + 12) 25 : Int) : ℚ) +
            (rtcm_getbitu buff (61 + 130 * i + 64) 7 : ℚ) * PRUNIT_GLO ∧
        ((rtcm3_decode_1012 buff msg).msg.sats.getD i
          {}).obsL1.flags.valid_cnr =
          decide (rtcm_getbitu buff (61 + 130 * i + 71) 8 ≠ 0) ∧
        ((rtcm3_decode_1012 buff msg).msg.sats.getD i
          {}).obsL2.flags.valid_cnr =
          decide (rtcm_getbitu buff (61 + 130 * i + 122) 8 ≠ 0))) :=
  ⟨c2_layout_1002 buff msg, c2_layout_1004 buff msg,
   c2_layout_1010 buff msg, c2_layout_1012 buff msg⟩

/-- C2 witness: the amended layout applied to the one-satellite 1004 message
`buf1004_onesat` and the one-satellite 1012 message `buf1012_fcn21`. -/
theorem legacy_extended_amb_cnr_layout_witness :
    ((rtcm3_decode_1004 buf1004_onesat obsMsg0).endBit =
      64 + 125 * (rtcm3_decode_1004 buf1004_onesat obsMsg0).msg.header.n_sat ∧
     ((rtcm3_decode_1004 buf1004_onesat obsMsg0).msg.sats.getD 0
       {}).obsL1.flags.valid_cnr =
       decide (rtcm_getbitu buf1004_onesat (64 + 125 * 0 + 66) 8 ≠ 0)) ∧
    ((rtcm3_decode_1012 buf1012_fcn21 obsMsg0).endBit =
      61 + 130 * (rtcm3_decode_1012 buf1012_fcn21 obsMsg0).msg.header.n_sat ∧
     ((rtcm3_decode_1012 buf1012_fcn21 obsMsg0).msg.sats.getD 0
       {}).obsL1.pseudorange =
       (1 / 50 : ℚ) *
          ((rtcm_getbitu buf1012_fcn21 (61 + 130 * 0 + 12) 25 : Int) : ℚ) +
         (rtcm_getbitu buf1012_fcn21 (61 + 130 * 0 + 64) 7 : ℚ) * PRUNIT_GLO) :=
  ⟨⟨((legacy_extended_amb_cnr_layout buf1004_onesat obsMsg0).2.1
      (by decide)).1,
    (((legacy_extended_amb_cnr_layout buf1004_onesat obsMsg0).2.1
      (by decide)).2 0 (by decide) (by decide)).2.1⟩,
   ⟨((legacy_extended_amb_cnr_layout buf1012_fcn21 obsMsg0).2.2.2
      (by decide)).1,
    (((legacy_extended_amb_cnr_layout buf1012_fcn21 obsMsg0).2.2.2
      (by decide)).2 0 (by decide) (by decide)).1⟩⟩

/-- C7: a 4062 buffer whose 4 reserved bits (after the 12-bit message
number) are nonzero makes `rtcm3_decode_4062` return `RC_INVALID_MESSAGE`
with the caller's output record unchanged. -/
theorem rtcm3_decode_4062_reserved_nonzero (buff : List Nat)
    (msg : RtcmMsgSwiftProprietary)
    (hnum : rtcm_getbitu buff 0 12 = 4062)
    (hres : rtcm_getbitu buff 12 4 ≠ 0) :
    rtcm3_decode_4062 buff msg = (Rc.RC_INVALID_MESSAGE, msg) := by
  simp [rtcm3_decode_4062, hnum, hres]

/-- C7 witness: the theorem applied to `buf4062_reserved` (reserved bits
`0b0010`) and a nontrivial prior record. -/
theorem rtcm3_decode_4062_reserved_nonzero_witness :
    rtcm3_decode_4062 buf4062_reserved swiftMsg0 =
      (Rc.RC_INVALID_MESSAGE, swiftMsg0) :=
  rtcm3_decode_4062_reserved_nonzero buf4062_reserved swiftMsg0
    (by decide) (by decide)

/-- C8: `rtcm3_decode_1230` reads each of the four 16-bit biases only when
its `fdma_signal_mask` bit is set, in the fixed order L1-CA (0x08), L1-P
(0x04), L2-CA (0x02), L2-P (0x01); a present bias is the signed 16-bit field
at bit offset 32 plus 16 for every earlier set mask bit, scaled by 0.02;
an absent bias is 0.0. -/
theorem rtcm3_decode_1230_mask_gated_biases (buff : List Nat)
    (msg : RtcmMsg1230)
    (hnum : rtcm_getbitu buff 0 12 = 1230) :
    (rtcm3_decode_1230 buff msg).1 = Rc.RC_OK ∧
    (rtcm3_decode_1230 buff msg).2.fdma_signal_mask = rtcm_getbitu buff 28 4 ∧
    (rtcm3_decode_1230 buff msg).2.L1_CA_cpb_meter =
      (if rtcm_getbitu buff 28 4 &&& 8 ≠ 0 then
        (rtcm_getbits buff 32 16 : ℚ) * (1 / 50) else 0) ∧
    (rtcm3_decode_1230 buff msg).2.L1_P_cpb_meter =
      (if rtcm_getbitu buff 28 4 &&& 4 ≠ 0 then
        (rtcm_getbits buff
          (32 + (if rtcm_getbitu buff 28 4 &&& 8 ≠ 0 then 16 else 0))
          16 : ℚ) * (1 / 50) else 0) ∧
    (rtcm3_decode_1230 buff msg).2.L2_CA_cpb_meter =
      (if rtcm_getbitu buff 28 4 &&& 2 ≠ 0 then
        (rtcm_getbits buff
          (32 + (if rtcm_getbitu buff 28 4 &&& 8 ≠ 0 then 16 else 0)
              + (if rtcm_getbitu buff 28 4 &&& 4 ≠ 0 then 16 else 0))
          16 : ℚ) * (1 / 50) else 0) ∧
    (rtcm3_decode_1230 buff msg).2.L2_P_cpb_meter =
      (if rtcm_getbitu buff 28 4 &&& 1 ≠ 0 then
        (rtcm_getbits buff
          (32 + (if rtcm_getbitu buff 28 4 &&& 8 ≠ 0 then 16 else 0)
              + (if rtcm_getbitu buff 28 4 &&& 4 ≠ 0 then 16 else 0)
              + (if rtcm_getbitu buff 28 4 &&& 2 ≠ 0 then 16 else 0))
          16 : ℚ) * (1 / 50) else 0) := by
  simp only [rtcm3_decode_1230, hnum]
  split_ifs <;> simp_all

/-- C8 witness: the theorem applied to `buf1230_mask1010`
(`fdma_signal_mask = 0b1010`): exactly the L1-CA and L2-CA biases are read
(from offsets 32 and 48) and L1-P, L2-P are 0.0. -/
theorem rtcm3_decode_1230_mask_gated_biases_witness :
    (rtcm3_decode_1230 buf1230_mask1010 msg1230_0).1 = Rc.RC_OK ∧
    (rtcm3_decode_1230 buf1230_mask1010 msg1230_0).2.fdma_signal_mask = 10 ∧
    (rtcm3_decode_1230 buf1230_mask1010 msg1230_0).2.L1_CA_cpb_meter =
      ((150 : Int) : ℚ) * (1 / 50) ∧
    (rtcm3_decode_1230 buf1230_mask1010 msg1230_0).2.L1_P_cpb_meter = 0 ∧
    (rtcm3_decode_1230 buf1230_mask1010 msg1230_0).2.L2_CA_cpb_meter =
      ((-50 : Int) : ℚ) * (1 / 50) ∧
    (rtcm3_decode_1230 buf1230_mask1010 msg1230_0).2.L2_P_cpb_meter = 0 := by
  have hm : rtcm_getbitu buf1230_mask1010 28 4 = 10 := by decide
  have hb1 : rtcm_getbits buf1230_mask1010 32 16 = 150 := by decide
  have hb2 : rtcm_getbits buf1230_mask1010 48 16 = -50 := by decide
  have ha8 : 10 &&& 8 = 8 := by decide
  have ha4 : 10 &&& 4 = 0 := by decide
  have ha2 : 10 &&& 2 = 2 := by decide
  have ha1 : 10 &&& 1 = 0 := by decide
  obtain ⟨h0, h1, h2, h3, h4, h5⟩ :=
    rtcm3_decode_1230_mask_gated_biases buf1230_mask1010 msg1230_0 (by decide)
  rw [hm] at h1 h2 h3 h4 h5
  refine ⟨h0, h1, ?_, ?_, ?_, ?_⟩ <;> simp_all

/-- C5: the Beidou MSM header reader stores
`normalize_bds2_tow` of the raw 30-bit time-of-week field, where the
normalization maps `raw ≥ 2^30 - 14·1000` to
`RTCM_MAX_TOW_MS + 1 - (2^30 - raw)` and keeps smaller values; in
particular `raw = 2^30 - 5000` is stored as 604 795 000. -/
theorem bds_tow_normalization (buff : List Nat) (raw : Nat) :
    (rtcm3_read_msm_header buff .BDS).1.tow_ms =
      normalize_bds2_tow (rtcm_getbitu buff 24 30) ∧
    (C_2P30 - BDS_SECOND_TO_GPS_SECOND * 1000 ≤ raw →
      normalize_bds2_tow raw = RTCM_MAX_TOW_MS + 1 - (C_2P30 - raw)) ∧
    (raw < C_2P30 - BDS_SECOND_TO_GPS_SECOND * 1000 →
      normalize_bds2_tow raw = raw) ∧
    normalize_bds2_tow (C_2P30 - 5000) = 604795000 := by
  refine ⟨rfl, ?_, ?_, by decide⟩
  · intro h; simp [normalize_bds2_tow, h]
  · intro h; simp [normalize_bds2_tow, Nat.not_le.mpr h]

/-- C5 witness: the theorem applied to the MSM7 BDS buffer carrying raw
`tow = 2^30 - 5000` (underflow branch) and to `raw = 1000` (plain
branch). -/
theorem bds_tow_normalization_witness :
    (rtcm3_read_msm_header bufMsm7_bds_neg_tow RtcmConstellation.BDS).1.tow_ms
      = normalize_bds2_tow (rtcm_getbitu bufMsm7_bds_neg_tow 24 30) ∧
    normalize_bds2_tow (C_2P30 - 5000) =
      RTCM_MAX_TOW_MS + 1 - (C_2P30 - (C_2P30 - 5000)) ∧
    normalize_bds2_tow 1000 = 1000 :=
  ⟨(bds_tow_normalization bufMsm7_bds_neg_tow 0).1,
   (bds_tow_normalization [] (C_2P30 - 5000)).2.1 (by decide),
   (bds_tow_normalization [] 1000).2.2.1 (by decide)⟩

/-! ### MSM support lemmas -/

lemma map_getD_range (m : List Bool) :
    (List.range m.length).map (fun j => m.getD j false) = m := by
  apply List.ext_getElem
  · simp
  · intro i h1 h2
    simp [List.getD_eq_getElem?_getD, List.getElem?_eq_getElem h2]

lemma length_present_cells (m : List Bool) :
    (msm_present_cells m).length = count_mask_values m := by
  unfold msm_present_cells count_mask_values
  conv_rhs => rw [← map_getD_range m]
  rw [← List.countP_eq_length_filter, List.count_eq_countP, List.countP_map]
  simp [Function.comp_def]

lemma present_cells_getD_lt (m : List Bool) (k : Nat)
    (hk : k < (msm_present_cells m).length) :
    (msm_present_cells m).getD k 0 < m.length := by
  have hmem : (msm_present_cells m).getD k 0 ∈ msm_present_cells m := by
    rw [List.getD_eq_getElem?_getD, List.getElem?_eq_getElem hk]
    exact List.getElem_mem hk
  have := List.mem_filter.mp hmem
  exact List.mem_range.mp this.1

/-- On the `RC_OK` path the cell-mask bound held and the output `signals`
array is the assembly-loop image of the present cells. -/
lemma msm_decode_ok_shape (buff : List Nat) (t : MsmEnum)
    (msg : RtcmMsmMessage)
    (hrc : (rtcm3_decode_msm_internal buff t msg).1 = Rc.RC_OK) :
    msm_num_sats buff * msm_num_sigs buff ≤ MSM_MAX_CELLS ∧
    (rtcm3_decode_msm_internal buff t msg).2.signals =
      (List.range (count_mask_values (msm_cell_mask buff))).map
        (msm_assemble_signal
          (decode_msm_sat_data buff (msm_num_sats buff) t (msm_header_end buff))
          (decode_msm_signal_data buff t
            (count_mask_values (msm_cell_mask buff))
            (decode_msm_sat_data buff (msm_num_sats buff) t
              (msm_header_end buff)).endBit)
          (msm_num_sigs buff) (msm_present_cells (msm_cell_mask buff)))
      ++ msg.signals.drop (count_mask_values (msm_cell_mask buff)) := by
  simp only [rtcm3_decode_msm_internal] at *
  split_ifs at hrc ⊢ <;> exact ⟨Nat.not_lt.mp (by assumption), rfl⟩

/-- C3: an MSM4-MSM7 message whose message number and TOW pass their checks
but whose satellite and signal masks have `popcount x popcount` exceeding
`MSM_MAX_CELLS = 64` is rejected with `RC_INVALID_MESSAGE`. -/
theorem msm_cell_mask_overflow_rejected (buff : List Nat) (t : MsmEnum)
    (msg : RtcmMsmMessage)
    (ht : t = .MSM4 ∨ t = .MSM5 ∨ t = .MSM6 ∨ t = .MSM7)
    (hnum : to_msm_type (rtcm_getbitu buff 0 12) = t)
    (hcons : to_constellation (rtcm_getbitu buff 0 12) ≠ .INVALID)
    (htow : ¬ (if to_constellation (rtcm_getbitu buff 0 12) = .GLO
        then RTCM_GLO_MAX_TOW_MS <
          (rtcm3_read_msm_header buff
            (to_constellation (rtcm_getbitu buff 0 12))).1.tow_ms
        else RTCM_MAX_TOW_MS <
          (rtcm3_read_msm_header buff
            (to_constellation (rtcm_getbitu buff 0 12))).1.tow_ms))
    (hcells : MSM_MAX_CELLS < msm_num_sats buff * msm_num_sigs buff) :
    (rtcm3_decode_msm_internal buff t msg).1 = Rc.RC_INVALID_MESSAGE := by
  have hcells' : MSM_MAX_CELLS <
      count_mask_values (rtcm3_read_msm_header buff
        (to_constellation (rtcm_getbitu buff 0 12))).1.satellite_mask *
      count_mask_values (rtcm3_read_msm_header buff
        (to_constellation (rtcm_getbitu buff 0 12))).1.signal_mask := hcells
  simp only [rtcm3_decode_msm_internal]
  rw [if_neg (not_not_intro ht), if_neg (not_not_intro hnum), if_neg hcons,
      if_neg htow, if_pos hcells']

/-- C3 witness: the theorem applied to `bufMsm4_too_many_cells` (GPS MSM4,
13 satellites x 5 signals = 65 > 64). -/
theorem msm_cell_mask_overflow_rejected_witness :
    (rtcm3_decode_msm_internal bufMsm4_too_many_cells .MSM4 msmMsg0).1 =
      Rc.RC_INVALID_MESSAGE :=
  msm_cell_mask_overflow_rejected bufMsm4_too_many_cells .MSM4 msmMsg0
    (Or.inl rfl) (by decide) (by decide) (by decide) (by decide)

/-- C4: in an MSM4-MSM7 message decoded with `RC_OK`, every cell of a
satellite whose rough-range `integer_ms` field carries the sentinel 255 has
`valid_pr = false` and `valid_cp = false`.  Cell `k`'s satellite sits at
row-major position `p_k / num_sigs` where `p_k` is the k-th set cell-mask
bit, and its `integer_ms` is the 8-bit field at
`msm_header_end + 8 * (p_k / num_sigs)`. -/
theorem msm_rough_range_invalid_kills_cell (buff : List Nat) (t : MsmEnum)
    (msg : RtcmMsmMessage)
    (hrc : (rtcm3_decode_msm_internal buff t msg).1 = Rc.RC_OK)
    (k : Nat) (hk : k < count_mask_values (msm_cell_mask buff))
    (hrough : rtcm_getbitu buff (msm_header_end buff +
        8 * ((msm_present_cells (msm_cell_mask buff)).getD k 0 /
          msm_num_sigs buff)) 8 = MSM_ROUGH_RANGE_INVALID) :
    ((rtcm3_decode_msm_internal buff t msg).2.signals.getD k
      ({} : RtcmMsmSignal)).flags.valid_pr = false ∧
    ((rtcm3_decode_msm_internal buff t msg).2.signals.getD k
      ({} : RtcmMsmSignal)).flags.valid_cp = false := by
  obtain ⟨hle, hsig⟩ := msm_decode_ok_shape buff t msg hrc
  rw [hsig, getD_append_left _ _ _ (by simpa using hk), getD_range_map _ _ hk]
  have hjlt : (msm_present_cells (msm_cell_mask buff)).getD k 0 <
      (msm_cell_mask buff).length := by
    apply present_cells_getD_lt
    rw [length_present_cells]; exact hk
  have hmlen : (msm_cell_mask buff).length =
      msm_num_sats buff * msm_num_sigs buff := by
    unfold msm_cell_mask msm_cell_mask_size
    rw [List.length_map, List.length_range]
    exact Nat.mod_eq_of_lt (lt_of_le_of_lt hle (by norm_num [MSM_MAX_CELLS]))
  have hslt : (msm_present_cells (msm_cell_mask buff)).getD k 0 /
      msm_num_sigs buff < msm_num_sats buff := by
    rw [hmlen] at hjlt
    exact Nat.div_lt_of_lt_mul (by rwa [Nat.mul_comm] at hjlt)
  have hrrv : (decode_msm_sat_data buff (msm_num_sats buff) t
      (msm_header_end buff)).rough_range_valid.getD
        ((msm_present_cells (msm_cell_mask buff)).getD k 0 /
          msm_num_sigs buff) false = false := by
    unfold decode_msm_sat_data
    dsimp only
    rw [getD_range_map _ _ hslt]
    simp only [List.getD_eq_getElem?_getD] at hrough
    simp [hrough]
  simp only [msm_assemble_signal]
  rw [hrrv]
  simp

/-- C4 witness: the theorem applied to `bufMsm4_rough_invalid` (GPS MSM4,
one satellite with `integer_ms = 255`, one present cell). -/
theorem msm_rough_range_invalid_kills_cell_witness :
    ((rtcm3_decode_msm_internal bufMsm4_rough_invalid .MSM4 msmMsg0).2.signals.getD 0
      ({} : RtcmMsmSignal)).flags.valid_pr = false ∧
    ((rtcm3_decode_msm_internal bufMsm4_rough_invalid .MSM4 msmMsg0).2.signals.getD 0
      ({} : RtcmMsmSignal)).flags.valid_cp = false :=
  msm_rough_range_invalid_kills_cell bufMsm4_rough_invalid .MSM4 msmMsg0
    (by decide) 0 (by decide) (by decide)

/-- C10: in an MSM4-MSM7 message decoded with `RC_OK`, every signal cell
present in the cell mask has `valid_lock = true`, unconditionally: the
lock-time stages set the flag for every cell and the assembly loop never
clears it, regardless of pseudorange, carrier-phase, CNR or rough-range
validity. -/
theorem msm_valid_lock_unconditional (buff : List Nat) (t : MsmEnum)
    (msg : RtcmMsmMessage)
    (hrc : (rtcm3_decode_msm_internal buff t msg).1 = Rc.RC_OK)
    (k : Nat) (hk : k < count_mask_values (msm_cell_mask buff)) :
    ((rtcm3_decode_msm_internal buff t msg).2.signals.getD k
      ({} : RtcmMsmSignal)).flags.valid_lock = true := by
  obtain ⟨hle, hsig⟩ := msm_decode_ok_shape buff t msg hrc
  rw [hsig, getD_append_left _ _ _ (by simpa using hk), getD_range_map _ _ hk]
  simp only [msm_assemble_signal, decode_msm_signal_data]
  rw [getD_range_map _ _ hk]

/-- C10 witness: the theorem applied to `bufMsm5_all_invalid` (GPS MSM5
whose rough range, rough rate, fine pseudoranges, phases, CNRs and rates all
carry invalid sentinels): cell 1 still has `valid_lock = true`. -/
theorem msm_valid_lock_unconditional_witness :
    ((rtcm3_decode_msm_internal bufMsm5_all_invalid .MSM5 msmMsg0).2.signals.getD 1
      ({} : RtcmMsmSignal)).flags.valid_lock = true :=
  msm_valid_lock_unconditional bufMsm5_all_invalid .MSM5 msmMsg0
    (by decide) 1 (by decide)

end Rtcm
